import Mathlib

/-!
Verification development for the Airtable Flow-to-TypeScript migration codemod.

Each section shallowly embeds one component of the codemod:
the oracle stdout sanitizer (src/typescript/flow_type_at_pos.ts),
the orchestrator (src/typescript/run.ts),
the migration reporter (src/modules/migration_reporter.ts and
src/typescript/migration_reporter.ts), the type-migration engine and the
cast resolver (src/typescript/migrate_to_typescript.ts), and the per-file
batch pipeline (src/typescript/process_batch_async.ts).

Strings model JavaScript strings by their character lists; locations and
comments attached to AST nodes (inheritLocAndComments) are not modeled
except for the start line of object-type members, which the engine sorts
on.  Reporter method calls inside the migration engine only append to the
per-worker finding arrays and never influence the value the engine
returns, so the engine is embedded as a pure function and the reporter is
embedded separately.
-/

/-! ## Oracle stdout sanitizer (src/typescript/flow_type_at_pos.ts) -/

namespace FlowTypeAtPos

/-- `stdout.split('\n', 2)[0]`: the text of the first line, i.e. everything
before the first newline (the whole string when it has no newline). -/
def firstLine (stdout : String) : String :=
  ⟨stdout.data.takeWhile (fun c => c ≠ '\n')⟩

/-- `.replace(/ \((implicit|explicit)\)$/, '')`: remove one trailing
qualifier suffix when present. Both alternatives are 11 characters long. -/
def stripQualifier (s : String) : String :=
  if (" (implicit)").data.isSuffixOf s.data then
    ⟨s.data.take (s.data.length - 11)⟩
  else if (" (explicit)").data.isSuffixOf s.data then
    ⟨s.data.take (s.data.length - 11)⟩
  else s

/-- `processFlowTypeAtPosStdout`.  The parsed Flow type fragment is
represented by its source text: the embedding returns the sanitized string
that the code hands to the parser, and `none` where the code returns
`null`. -/
def processFlowTypeAtPosStdout (stdout : String) : Option String :=
  let flowTypeString := stripQualifier (firstLine stdout)
  if flowTypeString = ("(unknown)") then none
  else if 100 ≤ flowTypeString.length then none
  else some flowTypeString

end FlowTypeAtPos

/-! ## Orchestrator (src/typescript/run.ts, runPrimaryAsync) -/

namespace TsRun

/-- `const BATCH = 50`. -/
def BATCH : Nat := 50

/-- The number of batches `popBatch` hands out before returning `null`:
each call removes `min(BATCH, remaining)` files until none remain. -/
def numBatches (fileCount : Nat) : Nat :=
  (fileCount + BATCH - 1) / BATCH

/-- The spawn loop: `for (let i = 0; i < CPUS; i++)` pops a batch and
`break`s when `popBatch()` returns `null`, else forks one worker and sends
it the popped batch.  First argument: loop iterations left (initially
`CPUS`); second: files not yet handed out.  Returns how many workers get
spawned. -/
def spawnLoop : Nat → Nat → Nat
  | 0, _ => 0
  | iterationsLeft + 1, remainingFiles =>
    if remainingFiles = 0 then 0
    else 1 + spawnLoop iterationsLeft (remainingFiles - min BATCH remainingFiles)

/-- `const workerCount = CPUS` (fixed before the spawn loop runs). -/
def workerCount (cpus : Nat) : Nat := cpus

/-- The report phase: every spawned worker eventually sends exactly one
`report` message; on each one the primary pushes it onto `reports` and
checks `reports.length === workerCount`, calling `finish()` (merge and
final summary) when the check passes.  `true` iff `finish()` is ever
called. -/
def finishCalled (cpus fileCount : Nat) : Bool :=
  let spawned := spawnLoop cpus fileCount
  (List.range spawned).any (fun reportsSoFar => reportsSoFar + 1 = workerCount cpus)

end TsRun

/-! ## Migration reporter (src/modules/migration_reporter.ts) -/

namespace Reporter

/-- A Babel `SourceLocation` together with the file path
(the `Location` interface). -/
structure Location where
  filePath : String
  startLine : Nat
  startColumn : Nat
  endLine : Nat
  endColumn : Nat
deriving DecidableEq, Repr

/-- The `MigrationReport` record of the module-migration reporter.
`requireWasDestructed` is the serialized form of a JS `Map<string, number>`
(insertion-ordered key/count pairs); `unableToLoadExternalModule` is the
serialized form of a JS `Set<string>` (insertion-ordered, no duplicate). -/
structure MigrationReport where
  skippedLargeFiles : List String
  requireNotCalled : List Location
  requireOtherThanString : List Location
  cannotFindModule : List (String × Location)
  moduleNotExportAssignment : List Location
  requireWasDestructed : List (String × Nat)
  unableToLoadExternalModule : List String
  importAfterSideEffects : List Location
deriving DecidableEq, Repr

/-- JS `Map.prototype.get` on an insertion-ordered association list. -/
def mapGet (m : List (String × Nat)) (k : String) : Option Nat :=
  (m.find? (fun p => p.1 = k)).map (fun p => p.2)

/-- JS `Map.prototype.set`: overwrite in place when the key exists
(keeping insertion order), else append the new key at the end. -/
def mapSet (m : List (String × Nat)) (k : String) (v : Nat) : List (String × Nat) :=
  if m.any (fun p => p.1 = k) then
    m.map (fun p => if p.1 = k then (k, v) else p)
  else m ++ [(k, v)]

/-- JS `Set.prototype.add`: append unless already present. -/
def setAdd (s : List String) (x : String) : List String :=
  if x ∈ s then s else s ++ [x]

/-- `mergeArrays(k, reports)`: concatenate one field across all reports in
report order. -/
def mergeArrays {α : Type} (field : MigrationReport → List α)
    (reports : List MigrationReport) : List α :=
  (reports.map field).flatten

/-- The `requireWasDestructed` merge loop of `mergeReports`: for each
report, for each `{modulePath, count}` entry, add `count` onto the map
entry (`get(...) || 0`). -/
def mergeDestructedCounts (reports : List MigrationReport) : List (String × Nat) :=
  reports.foldl
    (fun m report =>
      report.requireWasDestructed.foldl
        (fun m entry => mapSet m entry.1 ((mapGet m entry.1).getD 0 + entry.2))
        m)
    []

/-- The `unableToLoadExternalModule` merge loop of `mergeReports`: set
union by repeated `Set.add`. -/
def mergeUnableToLoad (reports : List MigrationReport) : List String :=
  reports.foldl
    (fun s report => report.unableToLoadExternalModule.foldl setAdd s)
    []

/-- `MigrationReporter.mergeReports`. -/
def mergeReports (reports : List MigrationReport) : MigrationReport where
  skippedLargeFiles := mergeArrays (fun r => r.skippedLargeFiles) reports
  requireNotCalled := mergeArrays (fun r => r.requireNotCalled) reports
  requireOtherThanString := mergeArrays (fun r => r.requireOtherThanString) reports
  cannotFindModule := mergeArrays (fun r => r.cannotFindModule) reports
  moduleNotExportAssignment := mergeArrays (fun r => r.moduleNotExportAssignment) reports
  requireWasDestructed := mergeDestructedCounts reports
  unableToLoadExternalModule := mergeUnableToLoad reports
  importAfterSideEffects := mergeArrays (fun r => r.importAfterSideEffects) reports

/-- The count a key carries in the merged `requireWasDestructed` map
(0 when absent), i.e. the key-to-sum map reading of the category. -/
def destructedCount (m : List (String × Nat)) (k : String) : Nat :=
  (mapGet m k).getD 0

/-- The total count one key carries across the entries of a single
report's `requireWasDestructed` list. -/
def sumKey (entries : List (String × Nat)) (k : String) : Nat :=
  ((entries.filter (fun p => p.1 = k)).map (fun p => p.2)).sum

/-- `displayLocation({filePath, start})`, producing
`relative/path:line:column`.  `rel` models `path.relative(CWD, ·)`. -/
def displayLocation (rel : String → String) (loc : Location) : String :=
  rel loc.filePath ++ (":") ++ toString loc.startLine ++ (":") ++ toString loc.startColumn

/-- The four allowlists the module-migration `logReport` consults
(src/modules/allowlists.ts).  Their curated contents were removed when the
codemod was open sourced, so the embedding keeps them as data. -/
structure ModulesAllowlists where
  requireNotCalled : List String
  requireOtherThanString : List String
  cannotFindModule : List String
  moduleNotExportAssignment : List String
deriving DecidableEq, Repr

/-- `logReport`, `skippedLargeFiles` block: printed as bare relative
paths, with no allowlist filtering (these findings carry no Location). -/
def renderedSkippedLargeFiles (rel : String → String) (r : MigrationReport) : List String :=
  r.skippedLargeFiles.map rel

/-- `logReport`, `requireNotCalled` block: display each Location, then
drop the strings present in the allowlist. -/
def renderedRequireNotCalled (rel : String → String) (al : ModulesAllowlists)
    (r : MigrationReport) : List String :=
  (r.requireNotCalled.map (displayLocation rel)).filter
    (fun location => ¬ al.requireNotCalled.contains location)

/-- `logReport`, `requireOtherThanString` block. -/
def renderedRequireOtherThanString (rel : String → String) (al : ModulesAllowlists)
    (r : MigrationReport) : List String :=
  (r.requireOtherThanString.map (displayLocation rel)).filter
    (fun location => ¬ al.requireOtherThanString.contains location)

/-- `logReport`, `cannotFindModule` block: pairs of module id and
displayed location, filtered on the displayed location. -/
def renderedCannotFindModule (rel : String → String) (al : ModulesAllowlists)
    (r : MigrationReport) : List (String × String) :=
  (r.cannotFindModule.map (fun p => (p.1, displayLocation rel p.2))).filter
    (fun p => ¬ al.cannotFindModule.contains p.2)

/-- `logReport`, `moduleNotExportAssignment` block. -/
def renderedModuleNotExportAssignment (rel : String → String) (al : ModulesAllowlists)
    (r : MigrationReport) : List String :=
  (r.moduleNotExportAssignment.map (displayLocation rel)).filter
    (fun location => ¬ al.moduleNotExportAssignment.contains location)

/-- `logReport`, `unableToLoadExternalModule` block: bare relative module
paths, no allowlist (these findings carry no Location).  The
`requireWasDestructed` and `importAfterSideEffects` blocks are commented
out in the source and render nothing. -/
def renderedUnableToLoad (rel : String → String) (r : MigrationReport) : List String :=
  r.unableToLoadExternalModule.map rel

end Reporter

/-! ## TypeScript-migration reporter (src/typescript/migration_reporter.ts) -/

namespace TsReporter

/-- The `MigrationReport` record of the Flow-to-TypeScript reporter: four
concatenation categories of Locations. -/
structure TsMigrationReport where
  typeParameterWithVariance : List Reporter.Location
  objectPropertyWithInternalName : List Reporter.Location
  objectPropertyWithMinusVariance : List Reporter.Location
  unsupportedTypeCast : List Reporter.Location
deriving DecidableEq, Repr

/-- src/typescript/allowlists.ts defines a single allowlist,
`typeParameterWithVariance` (its curated contents were removed when the
codemod was open sourced). -/
structure TsAllowlists where
  typeParameterWithVariance : List String
deriving DecidableEq, Repr

/-- `logReport`, `typeParameterWithVariance` block: display each
Location, then drop the strings present in the allowlist. -/
def renderedTypeParameterWithVariance (rel : String → String) (al : TsAllowlists)
    (r : TsMigrationReport) : List String :=
  (r.typeParameterWithVariance.map (Reporter.displayLocation rel)).filter
    (fun location => ¬ al.typeParameterWithVariance.contains location)

/-- `logReport`, `objectPropertyWithInternalName` block: displayed
locations, no allowlist exists for this category. -/
def renderedObjectPropertyWithInternalName (rel : String → String)
    (r : TsMigrationReport) : List String :=
  r.objectPropertyWithInternalName.map (Reporter.displayLocation rel)

/-- `logReport`, `objectPropertyWithMinusVariance` block. -/
def renderedObjectPropertyWithMinusVariance (rel : String → String)
    (r : TsMigrationReport) : List String :=
  r.objectPropertyWithMinusVariance.map (Reporter.displayLocation rel)

/-- `logReport`, `unsupportedTypeCast` block. -/
def renderedUnsupportedTypeCast (rel : String → String)
    (r : TsMigrationReport) : List String :=
  r.unsupportedTypeCast.map (Reporter.displayLocation rel)

end TsReporter

/-! ## Flow and TypeScript type grammars (src/typescript/migrate_to_typescript.ts)

The Flow side mirrors the Babel `t.FlowType` node kinds dispatched on by
`actuallyMigrateType`, and the TypeScript side mirrors the node kinds the
engine constructs.  Only the fields the engine reads are modeled; the one
piece of location data the engine depends on is the start line of
object-type members (they are sorted by it), kept as a `line` field. -/

namespace Migrate

/-- A Flow variance marker (`+` or `-`). -/
inductive Variance where
  | plus
  | minus
deriving DecidableEq, Repr

/-- `Identifier | QualifiedTypeIdentifier`. -/
inductive FlowId where
  | ident (name : String)
  | qualified (qualification : FlowId) (id : String)
deriving DecidableEq, Repr

/-- `Identifier | TSQualifiedName` on the TypeScript side. -/
inductive TSEntityName where
  | ident (name : String)
  | qualified (left : TSEntityName) (right : String)
deriving DecidableEq, Repr

/-- An object-member key: `Identifier` or a string literal key. -/
inductive PropKey where
  | ident (name : String)
  | stringKey (value : String)
deriving DecidableEq, Repr

mutual

/-- Babel `t.FlowType`, the closed set of kinds `actuallyMigrateType`
switches on.  Numeric literal values are modeled as integers. -/
inductive FlowType where
  | any
  | array (elementType : FlowType)
  | boolean
  | booleanLiteral (value : Bool)
  | nullLiteral
  | existsTy
  | functionTy (typeParams : Option (List FlowTypeParam))
      (params : List FlowFunctionParam) (rest : Option FlowRestParam)
      (returnType : FlowType)
  | generic (id : FlowId) (typeParams : Option (List FlowType))
  | interfaceTy
  | intersection (types : List FlowType)
  | mixed
  | empty
  | nullable (ty : FlowType)
  | numberLiteral (value : Int)
  | number
  | object (properties : List FlowObjectMember) (indexers : List FlowObjectMember)
      (callProperties : List FlowObjectMember) (internalSlots : List FlowObjectMember)
  | stringLiteral (value : String)
  | string
  | thisTy
  | tuple (types : List FlowType)
  | typeofTy (argument : FlowType)
  | union (types : List FlowType)
  | voidTy

/-- A member of a Flow `ObjectTypeAnnotation`:
`ObjectTypeProperty | ObjectTypeSpreadProperty | ObjectTypeIndexer |
ObjectTypeCallProperty | ObjectTypeInternalSlot`.  `line` is
`loc.start.line`. -/
inductive FlowObjectMember where
  | property (key : PropKey) (value : FlowType) (optional : Bool)
      (variance : Option Variance) (kind : Option String) (proto : Bool)
      (static : Bool) (method : Bool) (line : Nat)
  | spreadProp (argument : FlowType) (line : Nat)
  | indexer (id : Option String) (key : FlowType) (value : FlowType)
      (variance : Option Variance) (static : Bool) (line : Nat)
  | callProp (line : Nat)
  | internalSlot (line : Nat)

/-- A Flow `TypeParameter` of a `TypeParameterDeclaration`: name,
variance, optional bound (its inner type) and optional default. -/
inductive FlowTypeParam where
  | mk (name : String) (variance : Option Variance) (bound : Option FlowType)
      (dflt : Option FlowType)

/-- A parameter of a Flow `FunctionTypeAnnotation`: optional name,
`optional` tri-state flag, and its type. -/
inductive FlowFunctionParam where
  | mk (name : Option String) (optional : Option Bool) (tyAnn : FlowType)

/-- The rest parameter of a Flow `FunctionTypeAnnotation`. -/
inductive FlowRestParam where
  | mk (name : Option String) (tyAnn : FlowType)

end

mutual

/-- The TypeScript type nodes the engine constructs (`t.TSType`). -/
inductive TSType where
  | any
  | array (elementType : TSType)
  | boolean
  | literalBool (value : Bool)
  | literalNum (value : Int)
  | literalStr (value : String)
  | null
  | reference (name : TSEntityName) (args : Option (List TSType))
  | functionTy (typeParams : Option (List TSTypeParam))
      (params : List TSFuncParam) (returnType : TSType)
  | intersection (types : List TSType)
  | unknown
  | never
  | union (types : List TSType)
  | undefined
  | number
  | typeLiteral (members : List TSTypeElement)
  | indexedAccess (objectType : TSType) (indexType : TSType)
  | keyof (ty : TSType)
  | string
  | thisTy
  | tuple (types : List TSType)
  | typeQuery (name : TSEntityName)
  | voidTy
  | paren (ty : TSType)

/-- The TypeScript object-type members the engine constructs
(`t.TSTypeElement`). -/
inductive TSTypeElement where
  | propSig (key : PropKey) (ty : TSType) (computed : Bool) (optional : Bool)
      (readonly : Option Bool)
  | methodSig (key : PropKey) (typeParams : Option (List TSTypeParam))
      (params : List TSFuncParam) (returnType : TSType) (computed : Bool)
      (optional : Bool)
  | indexSig (name : String) (keyTy : TSType) (valueTy : TSType)
      (readonly : Option Bool)

/-- A TypeScript function-type parameter (`Identifier | RestElement`). -/
inductive TSFuncParam where
  | param (name : String) (optional : Option Bool) (ty : TSType)
  | rest (name : String) (ty : TSType)

/-- A TypeScript type parameter (`t.TSTypeParameter`). -/
inductive TSTypeParam where
  | mk (name : String) (constraint : Option TSType) (dflt : Option TSType)

end

/-- The Babel `type` tag of a TypeScript type node, as it appears in the
`JSON.stringify` of the error messages. -/
def TSType.kindName : TSType → String
  | .any => ("TSAnyKeyword")
  | .array _ => ("TSArrayType")
  | .boolean => ("TSBooleanKeyword")
  | .literalBool _ => ("TSLiteralType")
  | .literalNum _ => ("TSLiteralType")
  | .literalStr _ => ("TSLiteralType")
  | .null => ("TSNullKeyword")
  | .reference _ _ => ("TSTypeReference")
  | .functionTy _ _ _ => ("TSFunctionType")
  | .intersection _ => ("TSIntersectionType")
  | .unknown => ("TSUnknownKeyword")
  | .never => ("TSNeverKeyword")
  | .union _ => ("TSUnionType")
  | .undefined => ("TSUndefinedKeyword")
  | .number => ("TSNumberKeyword")
  | .typeLiteral _ => ("TSTypeLiteral")
  | .indexedAccess _ _ => ("TSIndexedAccessType")
  | .keyof _ => ("TSTypeOperator")
  | .string => ("TSStringKeyword")
  | .thisTy => ("TSThisType")
  | .tuple _ => ("TSTupleType")
  | .typeQuery _ => ("TSTypeQuery")
  | .voidTy => ("TSVoidKeyword")
  | .paren _ => ("TSParenthesizedType")

/-- `tsType.type === 'TSAnyKeyword'`. -/
def TSType.isAnyKeyword : TSType → Bool
  | .any => true
  | _ => false

/-- `tsType.type === 'TSFunctionType'`. -/
def TSType.isFunctionType : TSType → Bool
  | .functionTy _ _ _ => true
  | _ => false

/-- `indexType.typeAnnotation.type === 'TSStringKeyword'`. -/
def TSType.isStringKeyword : TSType → Bool
  | .string => true
  | _ => false

/-- `indexType.typeAnnotation.type === 'TSNumberKeyword'`. -/
def TSType.isNumberKeyword : TSType → Bool
  | .number => true
  | _ => false

/-- `key.type !== 'Identifier'` (the `computed` flag of the produced
member). -/
def PropKey.isIdentifierKey : PropKey → Bool
  | .ident _ => true
  | .stringKey _ => false

/-- `variance.kind === 'plus'`. -/
def Variance.isPlus : Variance → Bool
  | .plus => true
  | .minus => false

/-- `JSON.stringify` of a string: wrap in double quotes (the node kind
strings involved need no escaping). -/
def jsonQuote (s : String) : String := "\"" ++ s ++ "\""

/-- `migrateQualifiedIdentifier`. -/
def migrateQualifiedIdentifier : FlowId → TSEntityName
  | .ident name => .ident name
  | .qualified qualification id =>
    .qualified (migrateQualifiedIdentifier qualification) id

/-- `loc.start.line` of an object member. -/
def FlowObjectMember.memberLine : FlowObjectMember → Nat
  | .property _ _ _ _ _ _ _ _ line => line
  | .spreadProp _ line => line
  | .indexer _ _ _ _ _ line => line
  | .callProp line => line
  | .internalSlot line => line

/-- One insertion step of the stable sort modelling
`flowMembers.sort((a, b) => a.loc.start.line - b.loc.start.line)`
(JS `Array.prototype.sort` is stable). -/
def insertByLine (m : FlowObjectMember) : List FlowObjectMember → List FlowObjectMember
  | [] => [m]
  | n :: ns =>
    if n.memberLine < m.memberLine then n :: insertByLine m ns else m :: n :: ns

/-- Stable sort of the combined member list by start line. -/
def sortByLine : List FlowObjectMember → List FlowObjectMember
  | [] => []
  | m :: ms => insertByLine m (sortByLine ms)

/-- One entry of the `intersectionTypes` array built for a Flow object
type: either a buffered literal member list or a spread reference. -/
inductive IntersectionGroup where
  | literal (members : List TSTypeElement)
  | reference (ty : TSType)

/-- The per-group post-processing of the object-type case: a literal
group whose only member is an index signature keyed by something other
than `string` or `number` becomes `h.ObjectMap<K, V>`; other literal
groups stay literal object types; spread groups are used as-is. -/
def groupToType : IntersectionGroup → TSType
  | .reference ty => ty
  | .literal members =>
    match members with
    | [TSTypeElement.indexSig _ keyTy valueTy _] =>
      if ¬ keyTy.isStringKeyword ∧ ¬ keyTy.isNumberKeyword then
        .reference (.qualified (.ident ("h")) ("ObjectMap")) (some [keyTy, valueTy])
      else .typeLiteral members
    | _ => .typeLiteral members

/-- `params.params[0].type === 'TSAnyKeyword' || (TSTypeReference whose
name is the identifier FlowAnyExistential)`, the test deciding whether a
`React.Element` argument already is an unsound placeholder. -/
def isAnyOrExistentialRef : TSType → Bool
  | .any => true
  | .reference (.ident ("FlowAnyExistential")) _ => true
  | _ => false

/-- The special-case chain of the `GenericTypeAnnotation` branch of
`actuallyMigrateType`, applied after the identifier and the type
arguments have been migrated.  The catch-all is
`t.tsTypeReference(id, params)`. -/
def genericSpecial (id : TSEntityName) (params : Option (List TSType)) : TSType :=
  match id, params with
  | .ident ("Object"), none => .reference (.ident ("FlowAnyObject")) none
  | .ident ("Function"), none => .reference (.ident ("FlowAnyFunction")) none
  | .ident ("$ReadOnlyArray"), some [p] => .reference (.ident ("ReadonlyArray")) (some [p])
  | .ident ("$ReadOnly"), some [p] => .reference (.ident ("Readonly")) (some [p])
  | .ident ("$Keys"), some [p] => .keyof p
  | .ident ("$Values"), some [p] =>
    .reference (.qualified (.ident ("h")) ("ObjectValues")) (some [p])
  | .ident ("$Shape"), some [p] => .reference (.ident ("Partial")) (some [p])
  | .ident ("$Subtype"), some [p] => .reference (.ident ("FlowAnySubtype")) (some [p])
  | .ident ("$PropertyType"), some [p, q] => .indexedAccess p q
  | .ident ("$ElementType"), some [p, q] => .indexedAccess p q
  | .qualified (.ident ("React")) ("Node"), none =>
    .reference (.qualified (.ident ("React")) ("ReactNode")) none
  | .qualified (.ident ("React")) ("Element"), some [p] =>
    if isAnyOrExistentialRef p then
      .reference (.qualified (.ident ("React")) ("ReactElement")) (some [p])
    else
      .reference (.qualified (.ident ("React")) ("ReactElement"))
        (some [.reference (.qualified (.ident ("React")) ("ComponentProps")) (some [p])])
  | _, _ => .reference id params

def sizeOf_insertByLine (m : FlowObjectMember) (l : List FlowObjectMember) :
    sizeOf (insertByLine m l) = 1 + sizeOf m + sizeOf l := by
  induction l with
  | nil => simp [insertByLine]
  | cons n ns ih =>
    simp only [insertByLine]
    by_cases h : n.memberLine < m.memberLine
    · simp only [if_pos h, List.cons.sizeOf_spec, ih]
      try omega
    · simp only [if_neg h, List.cons.sizeOf_spec]
      try omega

def sizeOf_sortByLine (l : List FlowObjectMember) :
    sizeOf (sortByLine l) = sizeOf l := by
  induction l with
  | nil => simp [sortByLine]
  | cons m ms ih =>
    simp only [sortByLine, sizeOf_insertByLine, ih, List.cons.sizeOf_spec]

def sizeOf_list_append {α : Type} [SizeOf α] (l l' : List α) :
    sizeOf (l ++ l') + 1 = sizeOf l + sizeOf l' := by
  induction l with
  | nil => simp only [List.nil_append, List.nil.sizeOf_spec]; omega
  | cons x xs ih => simp only [List.cons_append, List.cons.sizeOf_spec] at ih ⊢; omega

def sizeOf_object_members (a b c d : List FlowObjectMember) :
    sizeOf (sortByLine (a ++ (b ++ (c ++ d)))) < 1 + sizeOf a + sizeOf b + sizeOf c + sizeOf d := by
  rw [sizeOf_sortByLine]
  have h1 := sizeOf_list_append a (b ++ (c ++ d))
  have h2 := sizeOf_list_append b (c ++ d)
  have h3 := sizeOf_list_append c d
  omega

mutual

/-- `migrateType` / `actuallyMigrateType`: the total rewrite from the
Flow type grammar to the TypeScript type grammar.  `inheritLocAndComments`
only copies location and comment metadata, which the embedding does not
model, so `migrateType` and `actuallyMigrateType` coincide here.  Throw
sites become `Except.error` carrying the exact message text. -/
def migrateType : FlowType → Except String TSType
  | .any => pure .any
  | .array elementType => do
    pure (.array (← migrateType elementType))
  | .boolean => pure .boolean
  | .booleanLiteral value => pure (.literalBool value)
  | .nullLiteral => pure .null
  | .existsTy => pure (.reference (.ident ("FlowAnyExistential")) none)
  | .functionTy typeParams params rest returnType => do
    let tsTypeParams ← match typeParams with
      | some ps => do pure (some (← migrateTypeParams ps))
      | none => pure none
    let tsParams ← migrateFunctionParams 0 params
    let allParams ← match rest with
      | some (FlowRestParam.mk restName restTy) => do
        let tsRestTy ← migrateType restTy
        pure (tsParams ++ [TSFuncParam.rest (restName.getD ("rest")) tsRestTy])
      | none => pure tsParams
    let tsReturn ← migrateType returnType
    pure (.functionTy tsTypeParams allParams tsReturn)
  | .generic gid tps => do
    let id := migrateQualifiedIdentifier gid
    let params ← match tps with
      | some ps =>
        if 0 < ps.length then do pure (some (← migrateTypes ps))
        else pure (Option.none (α := List TSType))
      | none => pure none
    pure (genericSpecial id params)
  | .interfaceTy => .error ("Unsupported AST node: \"InterfaceTypeAnnotation\"")
  | .intersection types => do
    pure (.intersection (← migrateWrapMembers types))
  | .mixed => pure .unknown
  | .empty => pure .never
  | .nullable ty => do
    let inner ← migrateType ty
    pure (.union [inner, .null, .undefined])
  | .numberLiteral value => pure (.literalNum value)
  | .number => pure .number
  | .object properties indexers callProperties internalSlots => do
    let flowMembers := sortByLine (properties ++ indexers ++ callProperties ++ internalSlots)
    let intersectionTypes ← migrateObjectGroups flowMembers []
    if intersectionTypes.isEmpty then pure (.typeLiteral [])
    else
      match intersectionTypes.map groupToType with
      | [t] => pure t
      | ts => pure (.intersection ts)
  | .stringLiteral value => pure (.literalStr value)
  | .string => pure .string
  | .thisTy => pure .thisTy
  | .tuple types => do
    pure (.tuple (← migrateTypes types))
  | .typeofTy argument => do
    let tsType ← migrateType argument
    match tsType with
    | .reference name args =>
      if args.isSome then
        .error ("Unexpected type parameters on `typeof` argument.")
      else pure (.typeQuery name)
    | other => .error ("Unexpected AST node: " ++ jsonQuote other.kindName)
  | .union types => do
    let (members, anyMemberIndex) ← migrateUnionMembers types 0 none
    -- The fallback value of `getD` is unreachable: the index is only read
    -- when it was set, which (provably) never happens.
    pure (match anyMemberIndex with
          | some i => members.getD i TSType.any
          | none => TSType.union members)
  | .voidTy => pure .voidTy
termination_by t => sizeOf t
decreasing_by
all_goals simp_wf
all_goals try omega
all_goals have hobj := sizeOf_object_members properties indexers callProperties internalSlots
all_goals omega

/-- Elementwise `migrateType` (the body of
`migrateTypeParameterInstantiation` and of the tuple case). -/
def migrateTypes : List FlowType → Except String (List TSType)
  | [] => pure []
  | t :: ts => do
    pure ((← migrateType t) :: (← migrateTypes ts))
termination_by ts => sizeOf ts
decreasing_by all_goals (simp_wf; try omega)

/-- Elementwise `migrateType` with the parenthesis wrapping applied to
function types inside intersections. -/
def migrateWrapMembers : List FlowType → Except String (List TSType)
  | [] => pure []
  | t :: ts => do
    let tsMemberType ← migrateType t
    let rest ← migrateWrapMembers ts
    pure ((if tsMemberType.isFunctionType then TSType.paren tsMemberType
           else tsMemberType) :: rest)
termination_by ts => sizeOf ts
decreasing_by all_goals (simp_wf; try omega)

/-- The member loop of the `UnionTypeAnnotation` case, threading the
`anyMemberIndex` variable exactly as the source does: it is initialized to
`null` and only ever assigned under the condition
`anyMemberIndex !== null`. -/
def migrateUnionMembers :
    List FlowType → Nat → Option Nat → Except String (List TSType × Option Nat)
  | [], _, anyMemberIndex => pure ([], anyMemberIndex)
  | t :: ts, i, anyMemberIndex => do
    let tsMemberType ← migrateType t
    let anyMemberIndexNext :=
      if anyMemberIndex.isSome && tsMemberType.isAnyKeyword then some i
      else anyMemberIndex
    let (restMembers, finalIndex) ← migrateUnionMembers ts (i + 1) anyMemberIndexNext
    pure ((if tsMemberType.isFunctionType then TSType.paren tsMemberType
           else tsMemberType) :: restMembers, finalIndex)
termination_by ts _ _ => sizeOf ts
decreasing_by all_goals (simp_wf; try omega)

/-- `migrateTypeParameterDeclaration`: migrate each type parameter (bound
and default).  The `reporter.typeParameterWithVariance` call only records
a finding and does not influence the produced node. -/
def migrateTypeParams : List FlowTypeParam → Except String (List TSTypeParam)
  | [] => pure []
  | FlowTypeParam.mk name _variance bound dflt :: ps => do
    let c ← match bound with
      | some b => do pure (some (← migrateType b))
      | none => pure none
    let d ← match dflt with
      | some b => do pure (some (← migrateType b))
      | none => pure none
    let rest ← migrateTypeParams ps
    pure (TSTypeParam.mk name c d :: rest)
termination_by ps => sizeOf ps
decreasing_by all_goals (simp_wf; try omega)

/-- The parameter map of the `FunctionTypeAnnotation` case: unnamed
parameters are called `argN` by position. -/
def migrateFunctionParams : Nat → List FlowFunctionParam → Except String (List TSFuncParam)
  | _, [] => pure []
  | i, FlowFunctionParam.mk name optional tyAnn :: ps => do
    let ty ← migrateType tyAnn
    let rest ← migrateFunctionParams (i + 1) ps
    pure (TSFuncParam.param (name.getD ("arg" ++ toString (i + 1))) optional ty :: rest)
termination_by _ ps => sizeOf ps
decreasing_by all_goals (simp_wf; try omega)

/-- `migrateObjectMember` / `actuallyMigrateObjectMember`.  The two
`reporter` calls (internal name, minus variance) only record findings. -/
def migrateObjectMember : FlowObjectMember → Except String TSTypeElement
  | .property key value optional variance kind proto static method _line =>
    if kind.isNone then
      .error ("Unsupported object type property kind: undefined")
    else if proto then
      .error ("Did not expect any Flow properties with `proto` set to true.")
    else if static then
      .error ("Did not expect any Flow properties with `static` set to true.")
    else do
      let tsValue ← migrateType value
      if ¬ method then
        pure (TSTypeElement.propSig key tsValue (¬ key.isIdentifierKey) optional
          (variance.map Variance.isPlus))
      else
        match tsValue with
        | TSType.functionTy typeParams params returnType =>
          pure (TSTypeElement.methodSig key typeParams params returnType
            (¬ key.isIdentifierKey) optional)
        | other => .error ("Unexpected AST node: " ++ jsonQuote other.kindName)
  | .indexer id key value variance static _line =>
    if static then
      .error ("Did not expect any Flow properties with `static` set to true.")
    else do
      let keyTy ← migrateType key
      let valueTy ← migrateType value
      pure (TSTypeElement.indexSig (id.getD ("key")) keyTy valueTy
        (variance.map Variance.isPlus))
  | .callProp _line => .error ("Unsupported AST node: \"ObjectTypeCallProperty\"")
  | .internalSlot _line => .error ("Unsupported AST node: \"ObjectTypeInternalSlot\"")
  | .spreadProp _argument _line =>
    -- The `default: never` branch of `actuallyMigrateObjectMember`;
    -- unreachable from `migrateType`, which diverts spreads beforehand.
    .error ("Unrecognized AST node: \"ObjectTypeSpreadProperty\"")
termination_by m => sizeOf m
decreasing_by all_goals (simp_wf; try omega)

/-- The member loop of the `ObjectTypeAnnotation` case: spreads flush a
reference entry onto `intersectionTypes`, other members are appended to
the trailing literal entry (adding one when the trailing entry is not a
literal). -/
def migrateObjectGroups :
    List FlowObjectMember → List IntersectionGroup → Except String (List IntersectionGroup)
  | [], acc => pure acc
  | FlowObjectMember.spreadProp argument _line :: restMembers, acc => do
    let tsArgument ← migrateType argument
    migrateObjectGroups restMembers
      (acc ++ [IntersectionGroup.reference (.paren tsArgument)])
  | m :: restMembers, acc => do
    -- Any non-spread member: appended to the trailing literal group.
    let tsMember ← migrateObjectMember m
    let accNext := match acc.getLast? with
      | some (IntersectionGroup.literal members) =>
        acc.dropLast ++ [IntersectionGroup.literal (members ++ [tsMember])]
      | _ => acc ++ [IntersectionGroup.literal [tsMember]]
    migrateObjectGroups restMembers accNext
termination_by ms _ => sizeOf ms
decreasing_by all_goals (simp_wf; try omega)

end

/-- `pre` is a leading piece of `s` (character-list prefix test). -/
def strStarts (pre s : String) : Bool :=
  pre.data.isPrefixOf s.data

/-- The documented unsupported-construct error messages of the engine: the
exact fixed sentences and the `JSON.stringify`-parameterized families
thrown by `actuallyMigrateType` and `actuallyMigrateObjectMember`. -/
def isDocumentedError (msg : String) : Bool :=
  strStarts ("Unsupported AST node:") msg ||
  strStarts ("Unexpected AST node:") msg ||
  strStarts ("Unrecognized AST node:") msg ||
  strStarts ("Unsupported object type property kind:") msg ||
  msg = ("Unexpected type parameters on `typeof` argument.") ||
  msg = ("Did not expect any Flow properties with `proto` set to true.") ||
  msg = ("Did not expect any Flow properties with `static` set to true.")

/-- The parenthesis wrapping applied to function types inside unions and
intersections. -/
def wrapFunctionParens (t : TSType) : TSType :=
  if t.isFunctionType then TSType.paren t else t

end Migrate

/-! ## Cast-expression resolution (the `TypeCastExpression` visitor) -/

namespace Cast

open Migrate

mutual

/-- The value-level expressions the cast resolver inspects.  The literal
constructors are exactly the Babel `Literal` kinds accepted by
`t.isLiteral`; `call` stands for any `CallExpression` and `otherExpr` for
every remaining expression kind (all treated alike by the resolver). -/
inductive Expression where
  | stringLit (value : String)
  | numericLit (value : Int)
  | booleanLit (value : Bool)
  | nullLit
  | regexLit
  | templateLit
  | bigintLit
  | identifier (name : String)
  | arrayExpr (elements : List ArrayElement)
  | objectExpr (properties : List ObjectProp)
  | call (callee : String)
  | typeCast (expression : Expression) (tyAnn : FlowType)
  | otherExpr

/-- One entry of a Babel `ArrayExpression.elements`:
a hole (`null`), a `SpreadElement`, or a plain expression. -/
inductive ArrayElement where
  | hole
  | spread (argument : Expression)
  | elem (e : Expression)

/-- One entry of a Babel `ObjectExpression.properties`:
an `ObjectMethod`, a `SpreadElement`, or an `ObjectProperty` (whose value
may be a non-expression pattern, modeled as `none`). -/
inductive ObjectProp where
  | objMethod
  | spread
  | prop (computed : Bool) (key : Expression) (value : Option Expression)

end

/-- `t.isLiteral(expression)`: the Babel `Literal` alias. -/
def Expression.isLiteral : Expression → Bool
  | .stringLit _ => true
  | .numericLit _ => true
  | .booleanLit _ => true
  | .nullLit => true
  | .regexLit => true
  | .templateLit => true
  | .bigintLit => true
  | _ => false

mutual

/-- `isComplexLiteral(expression)`: literal expressions, `undefined`, and
arrays/objects all of whose contents are themselves complex literals. -/
def isComplexLiteral (expression : Expression) : Bool :=
  if expression.isLiteral then true
  else match expression with
    | .identifier name => name = ("undefined")
    | .arrayExpr elements => isComplexLiteralElements elements
    | .objectExpr properties => isComplexLiteralProps properties
    | _ => false

/-- The `ArrayExpression` element loop of `isComplexLiteral`: holes pass,
spreads and plain elements recurse. -/
def isComplexLiteralElements : List ArrayElement → Bool
  | [] => true
  | ArrayElement.hole :: rest => isComplexLiteralElements rest
  | ArrayElement.spread argument :: rest =>
    isComplexLiteral argument && isComplexLiteralElements rest
  | ArrayElement.elem e :: rest =>
    isComplexLiteral e && isComplexLiteralElements rest

/-- The `ObjectExpression` property loop of `isComplexLiteral`: methods
and spreads fail; computed keys and expression values recurse. -/
def isComplexLiteralProps : List ObjectProp → Bool
  | [] => true
  | ObjectProp.objMethod :: _ => false
  | ObjectProp.spread :: _ => false
  | ObjectProp.prop computed key value :: rest =>
    (!computed || isComplexLiteral key) &&
    (match value with
     | some v => isComplexLiteral v
     | none => true) &&
    isComplexLiteralProps rest

end

/-- The inner-cast test of the first branch of the `TypeCastExpression`
visitor: the inner annotation is `any`, or it is a `GenericTypeAnnotation`
whose `typeParameters` field is truthy and whose id is the identifier
`Object` or `Function`. -/
def isUnsoundInnerAnn : FlowType → Bool
  | FlowType.any => true
  | FlowType.generic (FlowId.ident name) (some _) =>
    name = ("Object") || name = ("Function")
  | _ => false

/-- The TypeScript-side expressions the visitor builds.  `fromFlow` embeds
an untouched origin subexpression; `uCastCall` is
`u.cast<T>(expression)`, the runtime-checked safe-cast helper call with
its single type argument. -/
inductive TsExpression where
  | fromFlow (e : Expression)
  | asExpr (e : TsExpression) (ty : TSType)
  | parenE (e : TsExpression)
  | uCastCall (argument : TsExpression) (typeParam : TSType)

/-- `typeAnnotation.typeAnnotation.type === 'AnyTypeAnnotation'` on the
outer cast annotation. -/
def isAnyAnn : FlowType → Bool
  | FlowType.any => true
  | _ => false

/-- The self-referential literal cast test: a string literal cast to the
same string literal type, or a numeric literal cast to the same numeric
literal type. -/
def isSelfLiteralCast (expression : Expression) (tyAnn : FlowType) : Bool :=
  match expression, tyAnn with
  | Expression.stringLit s, FlowType.stringLiteral s2 => s = s2
  | Expression.numericLit n, FlowType.numberLiteral n2 => n = n2
  | _, _ => false

/-- The remaining branches of the `TypeCastExpression` visitor, reached
when the first (nested unsound cast) branch does not apply. -/
def resolveTypeCastOther (_insideCreateReactClassProp : Bool)
    (expression : Expression) (tyAnn : FlowType) : Except String TsExpression :=
  if isAnyAnn tyAnn then do
    -- `(x: any)` → `(x as any)`
    let anyTy ← migrateType tyAnn
    pure (TsExpression.asExpr (TsExpression.fromFlow expression) anyTy)
  else if isSelfLiteralCast expression tyAnn then
    -- `('foo': 'foo')` → `('foo' as const)`, `(42: 42)` → `(42 as const)`
    pure (TsExpression.asExpr (TsExpression.fromFlow expression)
      (TSType.reference (TSEntityName.ident ("const")) none))
  else if isComplexLiteral expression then do
    -- `(x: T)` → `(x as T)` when `x` is a literal like `[]` or `null`.
    let ty ← migrateType tyAnn
    pure (TsExpression.asExpr (TsExpression.fromFlow expression) ty)
  else do
    -- Fallback: `u.cast<T>(x)`, the runtime-checked safe cast.
    let ty ← migrateType tyAnn
    pure (TsExpression.uCastCall (TsExpression.fromFlow expression) ty)

/-- The `TypeCastExpression` visitor body: resolve one Flow cast
`(expression: tyAnn)`.  `insideCreateReactClassProp` models
`path.parent.type === 'ObjectProperty' && isInsideCreateReactClass(path)`. -/
def resolveTypeCast (insideCreateReactClassProp : Bool)
    (expression : Expression) (tyAnn : FlowType) : Except String TsExpression :=
  match expression with
  | Expression.typeCast innerExpression innerAnn =>
    if isUnsoundInnerAnn innerAnn then
      -- `((x: any): T)` / `((x: Object): T)` / `((x: Function): T)` → `(x as T)`
      if insideCreateReactClassProp then do
        let innerTy ← migrateType innerAnn
        let outerTy ← migrateType tyAnn
        pure (TsExpression.asExpr
          (TsExpression.parenE (TsExpression.asExpr
            (TsExpression.fromFlow innerExpression) innerTy))
          outerTy)
      else do
        let outerTy ← migrateType tyAnn
        pure (TsExpression.asExpr (TsExpression.fromFlow innerExpression) outerTy)
    else resolveTypeCastOther insideCreateReactClassProp expression tyAnn
  | _ => resolveTypeCastOther insideCreateReactClassProp expression tyAnn

end Cast

/-! ## Function-declaration parameter rewriting (`FunctionDeclaration.exit`) -/

namespace FuncDecl

open Migrate

/-- A function-declaration parameter as seen by the `exit` loop, after the
`TypeAnnotation` visitor has already rewritten annotations to TypeScript
(`TSTypeAnnotation`): an identifier with its `optional` flag, an
`AssignmentPattern` whose left side is an identifier, an
`AssignmentPattern` whose left side is some other pattern, or any other
parameter kind (rest elements and patterns, which the loop treats as
non-optional and leaves untouched). -/
inductive FuncParam where
  | ident (name : String) (optional : Bool) (tyAnn : Option TSType)
  | assign (name : String) (leftOptional : Bool) (tyAnn : Option TSType)
  | assignOther (tyAnn : Option TSType)
  | otherParam

/-- The `| undefined` widening applied to a to-be-required parameter:
push `undefined` onto an existing union, otherwise wrap the annotated type
in a fresh two-member union; parameters without an annotation are left
alone. -/
def undefinedUnion : Option TSType → Option TSType
  | none => none
  | some (TSType.union ts) => some (TSType.union (ts ++ [TSType.undefined]))
  | some t => some (TSType.union [t, TSType.undefined])

/-- One iteration of the reversed parameter loop of
`FunctionDeclaration.exit`.  Input: the `optional` flag so far and the
parameter; output: the updated flag and the rewritten parameter.
An `AssignmentPattern` always counts as optional and always gets
`left.optional` cleared; an identifier counts as optional when its flag is
set; anything else resets the `optional` flag.  A parameter that counts as
optional while the flag is already false is made required and has
`undefined` unioned into its annotated type. -/
def fixParamStep (optional : Bool) : FuncParam → Bool × FuncParam
  | FuncParam.ident name pOpt tyAnn =>
    if pOpt then
      if ¬ optional then (optional, FuncParam.ident name false (undefinedUnion tyAnn))
      else (optional, FuncParam.ident name pOpt tyAnn)
    else (false, FuncParam.ident name pOpt tyAnn)
  | FuncParam.assign name _leftOpt tyAnn =>
    if ¬ optional then (optional, FuncParam.assign name false (undefinedUnion tyAnn))
    else (optional, FuncParam.assign name false tyAnn)
  | FuncParam.assignOther tyAnn =>
    if ¬ optional then (optional, FuncParam.assignOther (undefinedUnion tyAnn))
    else (optional, FuncParam.assignOther tyAnn)
  | FuncParam.otherParam => (false, FuncParam.otherParam)

/-- The loop over the reversed parameter list, threading the `optional`
flag (initially `true`). -/
def exitParamsRev (optional : Bool) : List FuncParam → List FuncParam
  | [] => []
  | p :: ps =>
    let step := fixParamStep optional p
    step.2 :: exitParamsRev step.1 ps

/-- The value of the loop's `optional` flag after processing a list of
parameters. -/
def flagAfter (optional : Bool) (ps : List FuncParam) : Bool :=
  ps.foldl (fun b p => (fixParamStep b p).1) optional

/-- `FunctionDeclaration.exit`: iterate over `params.slice().reverse()`
mutating the parameters in place; the parameter list keeps its order. -/
def functionDeclarationExit (params : List FuncParam) : List FuncParam :=
  (exitParamsRev true params.reverse).reverse

/-- Whether the parameter is marked optional in the final output (the
`optional` flag of the underlying identifier). -/
def FuncParam.isOptionalMarked : FuncParam → Bool
  | .ident _ o _ => o
  | .assign _ o _ => o
  | .assignOther _ => false
  | .otherParam => false

/-- `paramIsOptional` of the loop: the parameter carries an
absence-marker (an optional flag or a default value). -/
def FuncParam.hasAbsenceMarker : FuncParam → Bool
  | .ident _ o _ => o
  | .assign _ _ _ => true
  | .assignOther _ => true
  | .otherParam => false

/-- The required-with-`undefined` form a marker-carrying parameter is
rewritten to when a later parameter is non-optional. -/
def makeRequired : FuncParam → FuncParam
  | FuncParam.ident name _ tyAnn => FuncParam.ident name false (undefinedUnion tyAnn)
  | FuncParam.assign name _ tyAnn => FuncParam.assign name false (undefinedUnion tyAnn)
  | FuncParam.assignOther tyAnn => FuncParam.assignOther (undefinedUnion tyAnn)
  | FuncParam.otherParam => FuncParam.otherParam

end FuncDecl

/-! ## Unannotated-parameter annotation and the per-file pipeline
(src/typescript/migrate_to_typescript.ts `annotateParamsWithFlowTypeAtPos`,
src/typescript/process_batch_async.ts) -/

namespace Pipeline

open Migrate

/-- The outcome of one `flowTypeAtPos` query as observed by the awaiting
caller: the promise rejected (the external command failed or the answer
did not parse), resolved to `null` (the `(unknown)` and length guards), or
resolved to a Flow type. -/
inductive OracleAnswer where
  | rejected
  | resolvedNone
  | resolvedType (ty : FlowType)

/-- A function parameter as seen by
`annotateParamsWithFlowTypeAtPos`: an identifier that still lacks a type
annotation, or one that already carries one (only the former are
queried). -/
inductive AnnParam where
  | unannotated (name : String)
  | annotated (name : String) (ty : TSType)

/-- The per-parameter async closure of `annotateParamsWithFlowTypeAtPos`:
query the oracle; on `null` leave the parameter untouched; on a type,
map Flow `empty` to `any`, migrate, and alias a resulting bare `any` to
`FlowAnyInferred`; a rejected query (or a migration throw inside the
closure) rejects the closure promise, modeled as `Except.error`. -/
def annotateParam (oracle : String → OracleAnswer) : AnnParam → Except Unit AnnParam
  | AnnParam.annotated name ty => pure (AnnParam.annotated name ty)
  | AnnParam.unannotated name =>
    match oracle name with
    | OracleAnswer.rejected => Except.error ()
    | OracleAnswer.resolvedNone => pure (AnnParam.unannotated name)
    | OracleAnswer.resolvedType flowType =>
      let tsTypeResult := match flowType with
        | FlowType.empty => Except.ok TSType.any
        | ft => migrateType ft
      match tsTypeResult with
      | Except.error _ => Except.error ()
      | Except.ok tsType =>
        let finalTy :=
          if tsType.isAnyKeyword then
            TSType.reference (TSEntityName.ident ("FlowAnyInferred")) none
          else tsType
        pure (AnnParam.annotated name finalTy)

/-- `Promise.all` over the per-parameter closures: the combined promise
resolves only when every closure resolves and rejects as soon as any
closure rejects. -/
def annotateParams (oracle : String → OracleAnswer) :
    List AnnParam → Except Unit (List AnnParam)
  | [] => pure []
  | p :: ps => do
    pure ((← annotateParam oracle p) :: (← annotateParams oracle ps))

/-- The per-file body of `processBatchAsync`: parse, run the migration
(whose returned promise awaits all annotation closures), and write the
migrated file — all inside a per-file `try`/`catch` that logs the error
and moves on.  The file is modeled by the parameters it queries; `some`
is the written output, `none` means the error handler ran and no output
was written for this file. -/
def processFile (oracle : String → OracleAnswer) (params : List AnnParam) :
    Option (List AnnParam) :=
  match annotateParams oracle params with
  | Except.ok annotatedParams => some annotatedParams
  | Except.error _ => none

/-- `processBatchAsync`: every file of the batch is processed
independently (`Promise.all` over per-file closures, each with its own
`try`/`catch`). -/
def processBatch (oracle : String → OracleAnswer)
    (files : List (List AnnParam)) : List (Option (List AnnParam)) :=
  files.map (processFile oracle)

end Pipeline

/-! # Theorems -/

theorem except_bind_ok {ε α β : Type} (a : α) (f : α → Except ε β) :
    (Except.ok a : Except ε α) >>= f = f a := rfl

theorem except_pure_eq_ok {ε α : Type} (a : α) :
    (pure a : Except ε α) = Except.ok a := rfl

theorem except_bind_error {ε α β : Type} (e : ε) (f : α → Except ε β) :
    (Except.error e : Except ε α) >>= f = Except.error e := rfl

/-! ## C2: oracle answer sanitization -/

/-- C2: for every raw textual oracle answer, the resolver takes only the
first line, strips a trailing qualifier, and then: a resulting
`(unknown)` or a resulting string of 100 characters or more yields no
answer, and a shorter (non-`(unknown)`) string is parsed and returned. -/
theorem c2_oracle_answer_sanitization (stdout s : String)
    (h : s = FlowTypeAtPos.stripQualifier (FlowTypeAtPos.firstLine stdout)) :
    (FlowTypeAtPos.processFlowTypeAtPosStdout stdout = none ↔
      (s = ("(unknown)") ∨ 100 ≤ s.length)) ∧
    (s ≠ ("(unknown)") → s.length ≤ 99 →
      FlowTypeAtPos.processFlowTypeAtPosStdout stdout = some s) := by
  subst h
  simp only [FlowTypeAtPos.processFlowTypeAtPosStdout]
  constructor
  · split_ifs with h1 h2
    · simp [h1]
    · simp [h2]
    · simp [h1, h2]
      try omega
  · intro h1 h2
    split_ifs with g1 g2
    · exact absurd g1 h1
    · omega
    · rfl

/-- Witness for C2 at the concrete answer `number (implicit)` followed by
a second line. -/
theorem c2_witness :
    ("number") = FlowTypeAtPos.stripQualifier
        (FlowTypeAtPos.firstLine ("number (implicit)\nsecond line")) ∧
    ((FlowTypeAtPos.processFlowTypeAtPosStdout ("number (implicit)\nsecond line") = none ↔
      (("number") = ("(unknown)") ∨ 100 ≤ ("number").length)) ∧
    (("number") ≠ ("(unknown)") → ("number").length ≤ 99 →
      FlowTypeAtPos.processFlowTypeAtPosStdout ("number (implicit)\nsecond line")
        = some ("number"))) :=
  ⟨by decide, c2_oracle_answer_sanitization ("number (implicit)\nsecond line") ("number") (by decide)⟩

/-! ## C4: orchestrator merge after all workers report -/

/-- C4: on a 4-CPU machine with a 30-file corpus (a single batch), the
spawn loop forks exactly one worker, yet `finish()` — the report merge and
final summary — is never called, because the report check compares against
`workerCount = CPUS = 4`; with at least as many batches as CPUs (200 files)
the merge does run. -/
theorem c4_small_corpus_merge_skipped :
    TsRun.spawnLoop 4 30 = 1 ∧ TsRun.numBatches 30 = 1 ∧
    TsRun.finishCalled 4 30 = false ∧ TsRun.finishCalled 4 200 = true := by
  decide

/-! ## C1: cast-expression resolution -/

/-- C1: evaluation of the cast resolver on the four documented scenarios
and on the parameterless-`Object` nested cast.  The first four conjuncts
are the spec scenarios: `((x: any): Foo)` becomes `(x as Foo)`,
`(x: any)` becomes `(x as any)`, `('ok': 'ok')` becomes
`('ok' as const)`, and `(someFunctionCall(): Foo)` becomes
`u.cast<Foo>(someFunctionCall())`.  The last conjunct is the divergence:
`((x: Object): Foo)` with a parameterless `Object` is resolved to the
safe-cast helper call, not to the direct `(x as Foo)` promised by the
comment above the branch, because the branch condition requires the
`typeParameters` field of the inner annotation to be truthy. -/
theorem c1_cast_resolution :
    Cast.resolveTypeCast false
        (Cast.Expression.typeCast (Cast.Expression.identifier ("x")) Migrate.FlowType.any)
        (Migrate.FlowType.generic (Migrate.FlowId.ident ("Foo")) none)
      = Except.ok (Cast.TsExpression.asExpr
          (Cast.TsExpression.fromFlow (Cast.Expression.identifier ("x")))
          (Migrate.TSType.reference (Migrate.TSEntityName.ident ("Foo")) none)) ∧
    Cast.resolveTypeCast false (Cast.Expression.identifier ("x")) Migrate.FlowType.any
      = Except.ok (Cast.TsExpression.asExpr
          (Cast.TsExpression.fromFlow (Cast.Expression.identifier ("x")))
          Migrate.TSType.any) ∧
    Cast.resolveTypeCast false (Cast.Expression.stringLit ("ok"))
        (Migrate.FlowType.stringLiteral ("ok"))
      = Except.ok (Cast.TsExpression.asExpr
          (Cast.TsExpression.fromFlow (Cast.Expression.stringLit ("ok")))
          (Migrate.TSType.reference (Migrate.TSEntityName.ident ("const")) none)) ∧
    Cast.resolveTypeCast false (Cast.Expression.call ("someFunctionCall"))
        (Migrate.FlowType.generic (Migrate.FlowId.ident ("Foo")) none)
      = Except.ok (Cast.TsExpression.uCastCall
          (Cast.TsExpression.fromFlow (Cast.Expression.call ("someFunctionCall")))
          (Migrate.TSType.reference (Migrate.TSEntityName.ident ("Foo")) none)) ∧
    Cast.resolveTypeCast false
        (Cast.Expression.typeCast (Cast.Expression.identifier ("x"))
          (Migrate.FlowType.generic (Migrate.FlowId.ident ("Object")) none))
        (Migrate.FlowType.generic (Migrate.FlowId.ident ("Foo")) none)
      = Except.ok (Cast.TsExpression.uCastCall
          (Cast.TsExpression.fromFlow (Cast.Expression.typeCast
            (Cast.Expression.identifier ("x"))
            (Migrate.FlowType.generic (Migrate.FlowId.ident ("Object")) none)))
          (Migrate.TSType.reference (Migrate.TSEntityName.ident ("Foo")) none)) := by
  refine ⟨?_, ?_, ?_, ?_, ?_⟩ <;>
    (simp only [Cast.resolveTypeCast, Cast.resolveTypeCastOther, Cast.isUnsoundInnerAnn,
      Cast.isAnyAnn, Cast.isSelfLiteralCast, Cast.isComplexLiteral, Cast.Expression.isLiteral,
      Migrate.migrateType, Migrate.migrateQualifiedIdentifier]
     rfl)

/-! ## C8: non-primitive-keyed indexers -/

/-- C8 counterexample: an object type carrying both a `UserId`-keyed
indexer and an ordinary property — `{[k: UserId]: string, foo: number}` —
migrates to a literal object type that retains the index signature with
its non-primitive key; it does not become the `h.ObjectMap` utility
application, contradicting the claim that every such indexer is rewritten
to the map utility. -/
theorem c8_counterexample :
    Migrate.migrateType (Migrate.FlowType.object
        [Migrate.FlowObjectMember.property (Migrate.PropKey.ident ("foo"))
          Migrate.FlowType.number false none (some ("init")) false false false 2]
        [Migrate.FlowObjectMember.indexer (some ("k"))
          (Migrate.FlowType.generic (Migrate.FlowId.ident ("UserId")) none)
          Migrate.FlowType.string none false 1]
        [] [])
      = Except.ok (Migrate.TSType.typeLiteral
          [Migrate.TSTypeElement.indexSig ("k")
            (Migrate.TSType.reference (Migrate.TSEntityName.ident ("UserId")) none)
            Migrate.TSType.string none,
           Migrate.TSTypeElement.propSig (Migrate.PropKey.ident ("foo"))
            Migrate.TSType.number false false none]) ∧
    Migrate.TSType.typeLiteral
        [Migrate.TSTypeElement.indexSig ("k")
          (Migrate.TSType.reference (Migrate.TSEntityName.ident ("UserId")) none)
          Migrate.TSType.string none,
         Migrate.TSTypeElement.propSig (Migrate.PropKey.ident ("foo"))
          Migrate.TSType.number false false none]
      ≠ Migrate.TSType.reference
          (Migrate.TSEntityName.qualified (Migrate.TSEntityName.ident ("h")) ("ObjectMap"))
          (some [Migrate.TSType.reference (Migrate.TSEntityName.ident ("UserId")) none,
                 Migrate.TSType.string]) := by
  constructor
  · simp [Migrate.migrateType, Migrate.migrateObjectGroups, Migrate.migrateObjectMember,
      Migrate.migrateQualifiedIdentifier, Migrate.sortByLine, Migrate.insertByLine,
      Migrate.FlowObjectMember.memberLine, Migrate.groupToType, Migrate.PropKey.isIdentifierKey]
    rfl
  · intro h
    exact Migrate.TSType.noConfusion h

/-- C8 amended: an object type whose only member is an indexer whose
migrated key type is neither `string` nor `number` is rewritten to the
`h.ObjectMap` utility applied to the key and value types; an indexer that
shares its literal group with other members keeps a literal index
signature. -/
theorem c8_single_indexer_object_map
    (idOpt : Option String) (keyT valT : Migrate.FlowType)
    (variance : Option Migrate.Variance) (line : Nat)
    (kt vt : Migrate.TSType)
    (hk : Migrate.migrateType keyT = Except.ok kt)
    (hv : Migrate.migrateType valT = Except.ok vt)
    (hs : kt.isStringKeyword = false)
    (hn : kt.isNumberKeyword = false) :
    Migrate.migrateType (Migrate.FlowType.object []
        [Migrate.FlowObjectMember.indexer idOpt keyT valT variance false line] [] [])
      = Except.ok (Migrate.TSType.reference
          (Migrate.TSEntityName.qualified (Migrate.TSEntityName.ident ("h")) ("ObjectMap"))
          (some [kt, vt])) := by
  simp [Migrate.migrateType, Migrate.migrateObjectGroups, Migrate.migrateObjectMember,
    Migrate.sortByLine, Migrate.insertByLine, hk, hv, Migrate.groupToType, hs, hn,
    except_bind_ok, except_pure_eq_ok]

/-- Witness for C8 amended at `{[k: UserId]: string}`. -/
theorem c8_witness :
    Migrate.migrateType (Migrate.FlowType.generic (Migrate.FlowId.ident ("UserId")) none)
      = Except.ok (Migrate.TSType.reference (Migrate.TSEntityName.ident ("UserId")) none) ∧
    Migrate.migrateType Migrate.FlowType.string = Except.ok Migrate.TSType.string ∧
    (Migrate.TSType.reference (Migrate.TSEntityName.ident ("UserId")) none).isStringKeyword
      = false ∧
    (Migrate.TSType.reference (Migrate.TSEntityName.ident ("UserId")) none).isNumberKeyword
      = false ∧
    Migrate.migrateType (Migrate.FlowType.object []
        [Migrate.FlowObjectMember.indexer (some ("k"))
          (Migrate.FlowType.generic (Migrate.FlowId.ident ("UserId")) none)
          Migrate.FlowType.string none false 1] [] [])
      = Except.ok (Migrate.TSType.reference
          (Migrate.TSEntityName.qualified (Migrate.TSEntityName.ident ("h")) ("ObjectMap"))
          (some [Migrate.TSType.reference (Migrate.TSEntityName.ident ("UserId")) none,
                 Migrate.TSType.string])) :=
  ⟨by simp only [Migrate.migrateType, Migrate.migrateQualifiedIdentifier]; rfl,
   by simp only [Migrate.migrateType]; rfl,
   rfl, rfl,
   c8_single_indexer_object_map (some ("k"))
     (Migrate.FlowType.generic (Migrate.FlowId.ident ("UserId")) none)
     Migrate.FlowType.string none 1
     (Migrate.TSType.reference (Migrate.TSEntityName.ident ("UserId")) none)
     Migrate.TSType.string
     (by simp only [Migrate.migrateType, Migrate.migrateQualifiedIdentifier]; rfl)
     (by simp only [Migrate.migrateType]; rfl)
     rfl rfl⟩

/-! ## C10: union migration is memberwise and never collapses -/

theorem migrateTypes_length (ts : List Migrate.FlowType) (ms : List Migrate.TSType)
    (h : Migrate.migrateTypes ts = Except.ok ms) : ms.length = ts.length := by
  induction ts generalizing ms with
  | nil =>
    simp only [Migrate.migrateTypes, except_pure_eq_ok, Except.ok.injEq] at h
    simp [← h]
  | cons t ts ih =>
    rw [Migrate.migrateTypes] at h
    cases ht : Migrate.migrateType t with
    | error e => rw [ht, except_bind_error] at h; exact absurd h (by simp)
    | ok m =>
      rw [ht, except_bind_ok] at h
      cases hts : Migrate.migrateTypes ts with
      | error e => rw [hts, except_bind_error] at h; exact absurd h (by simp)
      | ok rest =>
        rw [hts, except_bind_ok, except_pure_eq_ok, Except.ok.injEq] at h
        subst h
        simp [ih rest hts]

/-- The `anyMemberIndex` variable stays `null` forever: it is only
assigned under `anyMemberIndex !== null`, so the union loop returns the
wrapped members of `migrateTypes` together with `none`. -/
theorem migrateUnionMembers_no_index (ts : List Migrate.FlowType) (i : Nat) :
    Migrate.migrateUnionMembers ts i none
      = match Migrate.migrateTypes ts with
        | Except.error e => Except.error e
        | Except.ok ms => Except.ok (ms.map Migrate.wrapFunctionParens, none) := by
  induction ts generalizing i with
  | nil =>
    simp [Migrate.migrateTypes, Migrate.migrateUnionMembers, except_pure_eq_ok]
  | cons t ts ih =>
    simp only [Migrate.migrateUnionMembers, Migrate.migrateTypes]
    cases ht : Migrate.migrateType t with
    | error e => simp [except_bind_error]
    | ok m =>
      simp only [except_bind_ok, Option.isSome_none, Bool.false_and,
        if_neg Bool.false_ne_true]
      rw [ih (i + 1)]
      cases hts : Migrate.migrateTypes ts with
      | error e => simp [except_bind_error]
      | ok rest =>
        simp [except_bind_ok, except_pure_eq_ok, Migrate.wrapFunctionParens]

/-- C10: a Flow union whose members all migrate successfully migrates to
a TypeScript union with exactly one migrated member per origin member, in
origin order, function members wrapped in parentheses — the union is
never collapsed to a single member, `any` members included, because the
`anyMemberIndex` flattening guard can never fire. -/
theorem c10_union_memberwise (types : List Migrate.FlowType) (ms : List Migrate.TSType)
    (h : Migrate.migrateTypes types = Except.ok ms) :
    Migrate.migrateType (Migrate.FlowType.union types)
      = Except.ok (Migrate.TSType.union (ms.map Migrate.wrapFunctionParens))
    ∧ ms.length = types.length := by
  constructor
  · simp only [Migrate.migrateType]
    rw [migrateUnionMembers_no_index types 0, h]
    simp [except_bind_ok, except_pure_eq_ok]
  · exact migrateTypes_length types ms h

/-- Witness for C10 at the union `any | (() => void) | string`, whose
first member is `any` and whose function member gets parenthesized. -/
theorem c10_witness :
    Migrate.migrateTypes
        [Migrate.FlowType.any,
         Migrate.FlowType.functionTy none [] none Migrate.FlowType.voidTy,
         Migrate.FlowType.string]
      = Except.ok [Migrate.TSType.any,
          Migrate.TSType.functionTy none [] Migrate.TSType.voidTy,
          Migrate.TSType.string] ∧
    (Migrate.migrateType (Migrate.FlowType.union
        [Migrate.FlowType.any,
         Migrate.FlowType.functionTy none [] none Migrate.FlowType.voidTy,
         Migrate.FlowType.string])
      = Except.ok (Migrate.TSType.union
          ([Migrate.TSType.any,
            Migrate.TSType.functionTy none [] Migrate.TSType.voidTy,
            Migrate.TSType.string].map Migrate.wrapFunctionParens))
    ∧ ([Migrate.TSType.any,
        Migrate.TSType.functionTy none [] Migrate.TSType.voidTy,
        Migrate.TSType.string] : List Migrate.TSType).length
      = ([Migrate.FlowType.any,
          Migrate.FlowType.functionTy none [] none Migrate.FlowType.voidTy,
          Migrate.FlowType.string] : List Migrate.FlowType).length) :=
  ⟨by simp [Migrate.migrateTypes, Migrate.migrateType, Migrate.migrateFunctionParams,
      except_bind_ok, except_pure_eq_ok],
   c10_union_memberwise _ _
     (by simp [Migrate.migrateTypes, Migrate.migrateType, Migrate.migrateFunctionParams,
        except_bind_ok, except_pure_eq_ok])⟩

/-! ## C3: optional parameters before required ones -/

/-- C3 counterexample: `function f(a?: string, b: number)` — absence
marker on the strict prefix `a` followed by the non-optional `b` — does
not leave `a` marked optional: the exit pass makes `a` required with
`string | undefined`. -/
theorem c3_counterexample :
    FuncDecl.functionDeclarationExit
        [FuncDecl.FuncParam.ident ("a") true (some Migrate.TSType.string),
         FuncDecl.FuncParam.ident ("b") false (some Migrate.TSType.number)]
      = [FuncDecl.FuncParam.ident ("a") false
          (some (Migrate.TSType.union [Migrate.TSType.string, Migrate.TSType.undefined])),
         FuncDecl.FuncParam.ident ("b") false (some Migrate.TSType.number)] ∧
    ((FuncDecl.functionDeclarationExit
        [FuncDecl.FuncParam.ident ("a") true (some Migrate.TSType.string),
         FuncDecl.FuncParam.ident ("b") false (some Migrate.TSType.number)]).map
      FuncDecl.FuncParam.isOptionalMarked) = [false, false] := by
  constructor <;> rfl

theorem exitParamsRev_append (xs : List FuncDecl.FuncParam) :
    ∀ (b : Bool) (ys : List FuncDecl.FuncParam),
    FuncDecl.exitParamsRev b (xs ++ ys)
      = FuncDecl.exitParamsRev b xs ++ FuncDecl.exitParamsRev (FuncDecl.flagAfter b xs) ys := by
  induction xs with
  | nil => intro b ys; simp [FuncDecl.exitParamsRev, FuncDecl.flagAfter]
  | cons p ps ih =>
    intro b ys
    simp only [List.cons_append, FuncDecl.exitParamsRev, List.append_eq]
    rw [ih]
    simp [FuncDecl.flagAfter, List.foldl_cons]

theorem exitParamsRev_no_marker (ps : List FuncDecl.FuncParam) :
    (∀ p ∈ ps, p.hasAbsenceMarker = false) → ∀ (b : Bool),
    FuncDecl.exitParamsRev b ps = ps := by
  induction ps with
  | nil => intro _ _; rfl
  | cons p rest ih =>
    intro h b
    have hp := h p (by simp)
    have hrest : ∀ q ∈ rest, q.hasAbsenceMarker = false := fun q hq => h q (by simp [hq])
    cases p with
    | ident name opt tyAnn =>
      simp only [FuncDecl.FuncParam.hasAbsenceMarker] at hp
      subst hp
      simp [FuncDecl.exitParamsRev, FuncDecl.fixParamStep, ih hrest]
    | assign name lo tyAnn => simp [FuncDecl.FuncParam.hasAbsenceMarker] at hp
    | assignOther tyAnn => simp [FuncDecl.FuncParam.hasAbsenceMarker] at hp
    | otherParam =>
      simp [FuncDecl.exitParamsRev, FuncDecl.fixParamStep, ih hrest]

theorem flagAfter_no_marker (ps : List FuncDecl.FuncParam) :
    (∀ p ∈ ps, p.hasAbsenceMarker = false) → ps ≠ [] → ∀ (b : Bool),
    FuncDecl.flagAfter b ps = false := by
  induction ps with
  | nil => intro _ hne _; exact absurd rfl hne
  | cons p rest ih =>
    intro h _ b
    have hp := h p (by simp)
    have hrest : ∀ q ∈ rest, q.hasAbsenceMarker = false := fun q hq => h q (by simp [hq])
    have hstep : (FuncDecl.fixParamStep b p).1 = false := by
      cases p with
      | ident name opt tyAnn =>
        simp only [FuncDecl.FuncParam.hasAbsenceMarker] at hp
        simp [FuncDecl.fixParamStep, hp]
      | assign name lo tyAnn => simp [FuncDecl.FuncParam.hasAbsenceMarker] at hp
      | assignOther tyAnn => simp [FuncDecl.FuncParam.hasAbsenceMarker] at hp
      | otherParam => simp [FuncDecl.fixParamStep]
    have hcons : FuncDecl.flagAfter b (p :: rest)
        = FuncDecl.flagAfter (FuncDecl.fixParamStep b p).1 rest := rfl
    by_cases hr : rest = []
    · subst hr
      rw [hcons, hstep]
      rfl
    · rw [hcons]
      exact ih hrest hr _

theorem exitParamsRev_all_markers_false_flag (ps : List FuncDecl.FuncParam) :
    (∀ p ∈ ps, p.hasAbsenceMarker = true) →
    FuncDecl.exitParamsRev false ps = ps.map FuncDecl.makeRequired := by
  induction ps with
  | nil => intro _; rfl
  | cons p rest ih =>
    intro h
    have hp := h p (by simp)
    have hrest : ∀ q ∈ rest, q.hasAbsenceMarker = true := fun q hq => h q (by simp [hq])
    cases p with
    | ident name opt tyAnn =>
      simp only [FuncDecl.FuncParam.hasAbsenceMarker] at hp
      subst hp
      simp [FuncDecl.exitParamsRev, FuncDecl.fixParamStep, FuncDecl.makeRequired, ih hrest]
    | assign name lo tyAnn =>
      simp [FuncDecl.exitParamsRev, FuncDecl.fixParamStep, FuncDecl.makeRequired, ih hrest]
    | assignOther tyAnn =>
      simp [FuncDecl.exitParamsRev, FuncDecl.fixParamStep, FuncDecl.makeRequired, ih hrest]
    | otherParam => simp [FuncDecl.FuncParam.hasAbsenceMarker] at hp

/-- C3 amended: when absence-markers sit on the strict prefix `p1..pk`
and the following parameters `p(k+1)..pn` are all non-optional, the
rewritten list marks none of `p1..pk` optional: each prefix parameter is
made required with `undefined` unioned into its annotated type, the
suffix is unchanged, and no parameter in the output is marked optional at
all (in particular no optional parameter precedes a non-optional one). -/
theorem c3_prefix_made_required (pre suf : List FuncDecl.FuncParam)
    (hpre : ∀ p ∈ pre, p.hasAbsenceMarker = true)
    (hsuf : ∀ p ∈ suf, p.hasAbsenceMarker = false)
    (hne : suf ≠ []) :
    FuncDecl.functionDeclarationExit (pre ++ suf)
      = pre.map FuncDecl.makeRequired ++ suf
    ∧ ∀ p ∈ FuncDecl.functionDeclarationExit (pre ++ suf),
        p.isOptionalMarked = false := by
  have hpre' : ∀ p ∈ pre.reverse, p.hasAbsenceMarker = true := by
    intro p hp; exact hpre p (List.mem_reverse.mp hp)
  have hsuf' : ∀ p ∈ suf.reverse, p.hasAbsenceMarker = false := by
    intro p hp; exact hsuf p (List.mem_reverse.mp hp)
  have hne' : suf.reverse ≠ [] := by
    intro hcontra; exact hne (by simpa using congrArg List.reverse hcontra)
  have hmain : FuncDecl.functionDeclarationExit (pre ++ suf)
      = pre.map FuncDecl.makeRequired ++ suf := by
    unfold FuncDecl.functionDeclarationExit
    rw [List.reverse_append, exitParamsRev_append,
      exitParamsRev_no_marker suf.reverse hsuf' true,
      flagAfter_no_marker suf.reverse hsuf' hne' true,
      exitParamsRev_all_markers_false_flag pre.reverse hpre']
    rw [List.reverse_append, List.reverse_reverse, ← List.map_reverse,
      List.reverse_reverse]
  refine ⟨hmain, ?_⟩
  intro p hp
  rw [hmain] at hp
  rcases List.mem_append.mp hp with hmem | hmem
  · rcases List.mem_map.mp hmem with ⟨q, _, hq⟩
    subst hq
    cases q <;> rfl
  · have := hsuf p hmem
    cases p with
    | ident name opt tyAnn =>
      simp only [FuncDecl.FuncParam.hasAbsenceMarker] at this
      simp [FuncDecl.FuncParam.isOptionalMarked, this]
    | assign name lo tyAnn => simp [FuncDecl.FuncParam.hasAbsenceMarker] at this
    | assignOther tyAnn => simp [FuncDecl.FuncParam.hasAbsenceMarker] at this
    | otherParam => rfl

/-- Witness for C3 amended at `function f(a?: string, b: number)`. -/
theorem c3_witness :
    (∀ p ∈ [FuncDecl.FuncParam.ident ("a") true (some Migrate.TSType.string)],
      p.hasAbsenceMarker = true) ∧
    (∀ p ∈ [FuncDecl.FuncParam.ident ("b") false (some Migrate.TSType.number)],
      p.hasAbsenceMarker = false) ∧
    ([FuncDecl.FuncParam.ident ("b") false (some Migrate.TSType.number)] ≠ []) ∧
    (FuncDecl.functionDeclarationExit
        ([FuncDecl.FuncParam.ident ("a") true (some Migrate.TSType.string)]
          ++ [FuncDecl.FuncParam.ident ("b") false (some Migrate.TSType.number)])
      = [FuncDecl.FuncParam.ident ("a") true
          (some Migrate.TSType.string)].map FuncDecl.makeRequired
        ++ [FuncDecl.FuncParam.ident ("b") false (some Migrate.TSType.number)]
    ∧ ∀ p ∈ FuncDecl.functionDeclarationExit
        ([FuncDecl.FuncParam.ident ("a") true (some Migrate.TSType.string)]
          ++ [FuncDecl.FuncParam.ident ("b") false (some Migrate.TSType.number)]),
        p.isOptionalMarked = false) :=
  ⟨by intro p hp; simp at hp; subst hp; rfl,
   by intro p hp; simp at hp; subst hp; rfl,
   by simp,
   c3_prefix_made_required
     [FuncDecl.FuncParam.ident ("a") true (some Migrate.TSType.string)]
     [FuncDecl.FuncParam.ident ("b") false (some Migrate.TSType.number)]
     (by intro p hp; simp at hp; subst hp; rfl)
     (by intro p hp; simp at hp; subst hp; rfl)
     (by simp)⟩

/-! ## C5: rejected oracle queries -/

/-- C5 counterexample: a file with one unannotated parameter whose oracle
query rejects produces no migrated output at all (`none`), rather than
the claimed output with the parameter simply left unannotated. -/
theorem c5_counterexample :
    Pipeline.processFile (fun _ => Pipeline.OracleAnswer.rejected)
        [Pipeline.AnnParam.unannotated ("x")] = none ∧
    (none : Option (List Pipeline.AnnParam))
      ≠ some [Pipeline.AnnParam.unannotated ("x")] :=
  ⟨rfl, by simp⟩

theorem annotateParams_error_of_rejected (oracle : String → Pipeline.OracleAnswer)
    (ps : List Pipeline.AnnParam) (name : String) :
    Pipeline.AnnParam.unannotated name ∈ ps →
    oracle name = Pipeline.OracleAnswer.rejected →
    Pipeline.annotateParams oracle ps = Except.error () := by
  induction ps with
  | nil => intro h _; simp at h
  | cons p rest ih =>
    intro hmem hrej
    rcases List.mem_cons.mp hmem with hp | hp
    · subst hp
      simp [Pipeline.annotateParams, Pipeline.annotateParam, hrej, except_bind_error]
    · cases hap : Pipeline.annotateParam oracle p with
      | error e =>
        cases e
        simp [Pipeline.annotateParams, hap, except_bind_error]
      | ok a =>
        simp [Pipeline.annotateParams, hap, except_bind_ok, ih hp hrej, except_bind_error]

/-- C5 amended: a failed or rejected inference query is never fatal to
the worker or the batch — every file still yields a result and the other
files of the batch are processed independently — but the affected file
itself is left unmigrated (its output is not written); only a query that
resolves with no usable answer leaves just the parameter unannotated
while the file proceeds. -/
theorem c5_rejected_query_skips_file (oracle : String → Pipeline.OracleAnswer)
    (files : List (List Pipeline.AnnParam)) (ps : List Pipeline.AnnParam)
    (name : String) (nm : String)
    (h1 : Pipeline.AnnParam.unannotated name ∈ ps)
    (h2 : oracle name = Pipeline.OracleAnswer.rejected)
    (h3 : oracle nm = Pipeline.OracleAnswer.resolvedNone) :
    Pipeline.processFile oracle ps = none
    ∧ Pipeline.processBatch oracle (files ++ [ps])
        = files.map (Pipeline.processFile oracle) ++ [none]
    ∧ Pipeline.annotateParam oracle (Pipeline.AnnParam.unannotated nm)
        = Except.ok (Pipeline.AnnParam.unannotated nm) := by
  have hfile : Pipeline.processFile oracle ps = none := by
    rw [Pipeline.processFile, annotateParams_error_of_rejected oracle ps name h1 h2]
  refine ⟨hfile, ?_, ?_⟩
  · rw [Pipeline.processBatch, List.map_append]
    simp [hfile]
  · simp only [Pipeline.annotateParam, h3]
    rfl

/-- Witness for C5: a two-file batch where the second file holds the
parameter `x` whose query rejects, and a query for `y` resolves with no
usable answer. -/
theorem c5_witness :
    Pipeline.AnnParam.unannotated ("x") ∈ [Pipeline.AnnParam.unannotated ("x")] ∧
    (fun nm => if nm = ("x") then Pipeline.OracleAnswer.rejected
               else Pipeline.OracleAnswer.resolvedNone) ("x")
      = Pipeline.OracleAnswer.rejected ∧
    (fun nm => if nm = ("x") then Pipeline.OracleAnswer.rejected
               else Pipeline.OracleAnswer.resolvedNone) ("y")
      = Pipeline.OracleAnswer.resolvedNone ∧
    (Pipeline.processFile
        (fun nm => if nm = ("x") then Pipeline.OracleAnswer.rejected
                   else Pipeline.OracleAnswer.resolvedNone)
        [Pipeline.AnnParam.unannotated ("x")] = none
    ∧ Pipeline.processBatch
        (fun nm => if nm = ("x") then Pipeline.OracleAnswer.rejected
                   else Pipeline.OracleAnswer.resolvedNone)
        ([[Pipeline.AnnParam.unannotated ("y")]] ++ [[Pipeline.AnnParam.unannotated ("x")]])
        = [[Pipeline.AnnParam.unannotated ("y")]].map
            (Pipeline.processFile
              (fun nm => if nm = ("x") then Pipeline.OracleAnswer.rejected
                         else Pipeline.OracleAnswer.resolvedNone)) ++ [none]
    ∧ Pipeline.annotateParam
        (fun nm => if nm = ("x") then Pipeline.OracleAnswer.rejected
                   else Pipeline.OracleAnswer.resolvedNone)
        (Pipeline.AnnParam.unannotated ("y"))
        = Except.ok (Pipeline.AnnParam.unannotated ("y"))) :=
  ⟨by simp, by simp, by simp,
   c5_rejected_query_skips_file _ _ _ ("x") ("y") (by simp) (by simp) (by simp)⟩

/-! ## C6: merge is order-independent -/

theorem perm_flatten {α : Type} {l₁ l₂ : List (List α)} (h : l₁.Perm l₂) :
    l₁.flatten.Perm l₂.flatten := by
  induction h with
  | nil => exact List.Perm.refl _
  | cons x _ ih => simpa [List.flatten_cons] using ih.append_left x
  | swap x y l =>
    simp only [List.flatten_cons]
    exact List.perm_append_comm_assoc y x l.flatten
  | trans _ _ ih₁ ih₂ => exact ih₁.trans ih₂

theorem find?_map_update_same (k : String) (v : Nat) :
    ∀ (m : List (String × Nat)), m.any (fun p => p.1 = k) = true →
    (m.map (fun p => if p.1 = k then (k, v) else p)).find? (fun p => p.1 = k)
      = some (k, v) := by
  intro m
  induction m with
  | nil => intro h; simp at h
  | cons p rest ih =>
    intro h
    by_cases hp : p.1 = k
    · simp [hp, List.find?]
    · have h' : rest.any (fun p => p.1 = k) = true := by
        simpa [List.any_cons, hp] using h
      simp [hp, List.find?, ih h']

theorem find?_map_update_other (k : String) (v : Nat) (k' : String) (hkk : k' ≠ k) :
    ∀ (m : List (String × Nat)),
    (m.map (fun p => if p.1 = k then (k, v) else p)).find? (fun p => p.1 = k')
      = m.find? (fun p => p.1 = k') := by
  intro m
  induction m with
  | nil => simp
  | cons p rest ih =>
    by_cases hp : p.1 = k
    · have hpk : ¬ (p.1 = k') := by rw [hp]; exact fun hc => hkk hc.symm
      rw [List.map_cons, if_pos hp,
        List.find?_cons_of_neg _ (by simpa using (fun hc => hkk hc.symm : ¬ (k = k'))),
        List.find?_cons_of_neg _ (by simpa using hpk)]
      exact ih
    · by_cases hpk : p.1 = k'
      · rw [List.map_cons, if_neg hp,
          List.find?_cons_of_pos _ (by simpa using hpk),
          List.find?_cons_of_pos _ (by simpa using hpk)]
      · rw [List.map_cons, if_neg hp,
          List.find?_cons_of_neg _ (by simpa using hpk),
          List.find?_cons_of_neg _ (by simpa using hpk)]
        exact ih

theorem destructedCount_mapSet_same (m : List (String × Nat)) (k : String) (v : Nat) :
    Reporter.destructedCount (Reporter.mapSet m k v) k = v := by
  simp only [Reporter.destructedCount, Reporter.mapGet, Reporter.mapSet]
  by_cases h : m.any (fun p => p.1 = k)
  · rw [if_pos h, find?_map_update_same k v m h]
    rfl
  · rw [if_neg h, List.find?_append]
    have hnone : m.find? (fun p => decide (p.1 = k)) = none := by
      rw [List.find?_eq_none]
      intro x hx hpx
      exact h (List.any_eq_true.mpr ⟨x, hx, by simpa using hpx⟩)
    rw [hnone]
    simp

theorem destructedCount_mapSet_other (m : List (String × Nat)) (k : String) (v : Nat)
    (k' : String) (hkk : k' ≠ k) :
    Reporter.destructedCount (Reporter.mapSet m k v) k'
      = Reporter.destructedCount m k' := by
  simp only [Reporter.destructedCount, Reporter.mapGet, Reporter.mapSet]
  by_cases h : m.any (fun p => p.1 = k)
  · rw [if_pos h, find?_map_update_other k v k' hkk m]
  · rw [if_neg h, List.find?_append]
    have h2 : ([(k, v)] : List (String × Nat)).find? (fun p => decide (p.1 = k')) = none := by
      simp [Ne.symm hkk]
    rw [h2]
    simp

theorem sumKey_cons (e : String × Nat) (rest : List (String × Nat)) (k : String) :
    Reporter.sumKey (e :: rest) k
      = (if e.1 = k then e.2 else 0) + Reporter.sumKey rest k := by
  simp only [Reporter.sumKey]
  by_cases he : e.1 = k <;> simp [he]

theorem innerFold_count (k : String) :
    ∀ (entries : List (String × Nat)) (m : List (String × Nat)),
    Reporter.destructedCount
      (entries.foldl
        (fun m entry => Reporter.mapSet m entry.1 ((Reporter.mapGet m entry.1).getD 0 + entry.2))
        m) k
      = Reporter.destructedCount m k + Reporter.sumKey entries k := by
  intro entries
  induction entries with
  | nil => intro m; simp [Reporter.sumKey]
  | cons e rest ih =>
    intro m
    rw [List.foldl_cons, ih, sumKey_cons]
    by_cases he : e.1 = k
    · subst he
      rw [destructedCount_mapSet_same]
      simp only [Reporter.destructedCount]
      simp
      try omega
    · rw [destructedCount_mapSet_other _ _ _ _ (fun hc => he hc.symm)]
      simp [he]

theorem mergeDestructedCounts_count (reports : List Reporter.MigrationReport) (k : String) :
    Reporter.destructedCount (Reporter.mergeDestructedCounts reports) k
      = (reports.map (fun r => Reporter.sumKey r.requireWasDestructed k)).sum := by
  simp only [Reporter.mergeDestructedCounts]
  suffices h : ∀ m, Reporter.destructedCount
      (reports.foldl
        (fun m report => report.requireWasDestructed.foldl
          (fun m entry =>
            Reporter.mapSet m entry.1 ((Reporter.mapGet m entry.1).getD 0 + entry.2))
          m)
        m) k
      = Reporter.destructedCount m k
        + (reports.map (fun r => Reporter.sumKey r.requireWasDestructed k)).sum by
    have h0 := h []
    simpa [Reporter.destructedCount, Reporter.mapGet] using h0
  induction reports with
  | nil => intro m; simp
  | cons r rest ih =>
    intro m
    rw [List.foldl_cons, ih, innerFold_count]
    simp
    omega

theorem mem_setAdd (s : List String) (x y : String) :
    y ∈ Reporter.setAdd s x ↔ y ∈ s ∨ y = x := by
  simp only [Reporter.setAdd]
  split_ifs with h
  · constructor
    · intro hy; exact Or.inl hy
    · rintro (hy | rfl)
      · exact hy
      · exact h
  · simp [List.mem_append]

theorem mem_foldl_setAdd (x : String) :
    ∀ (xs s : List String), x ∈ xs.foldl Reporter.setAdd s ↔ x ∈ s ∨ x ∈ xs := by
  intro xs
  induction xs with
  | nil => intro s; simp
  | cons y rest ih =>
    intro s
    rw [List.foldl_cons, ih, mem_setAdd]
    simp
    tauto

theorem mem_mergeUnableToLoad (reports : List Reporter.MigrationReport) (x : String) :
    x ∈ Reporter.mergeUnableToLoad reports
      ↔ ∃ r ∈ reports, x ∈ r.unableToLoadExternalModule := by
  simp only [Reporter.mergeUnableToLoad]
  suffices h : ∀ s, x ∈ reports.foldl
      (fun s report => report.unableToLoadExternalModule.foldl Reporter.setAdd s) s
      ↔ x ∈ s ∨ ∃ r ∈ reports, x ∈ r.unableToLoadExternalModule by
    simpa using h []
  induction reports with
  | nil => intro s; simp
  | cons r rest ih =>
    intro s
    rw [List.foldl_cons, ih, mem_foldl_setAdd]
    simp
    tauto

/-- C6: report merging is order-independent under each category's
semantics — the concatenation categories as multisets (permutation
equality), the destructure-count category as a key-to-sum map, the
unloadable-module category as a set; in particular `merge [A, B]` and
`merge [B, A]` agree on every category. -/
theorem c6_merge_order_independent (l₁ l₂ : List Reporter.MigrationReport)
    (k x : String) (h : l₁.Perm l₂) :
    ((Reporter.mergeReports l₁).skippedLargeFiles).Perm
      ((Reporter.mergeReports l₂).skippedLargeFiles)
    ∧ ((Reporter.mergeReports l₁).requireNotCalled).Perm
      ((Reporter.mergeReports l₂).requireNotCalled)
    ∧ ((Reporter.mergeReports l₁).requireOtherThanString).Perm
      ((Reporter.mergeReports l₂).requireOtherThanString)
    ∧ ((Reporter.mergeReports l₁).cannotFindModule).Perm
      ((Reporter.mergeReports l₂).cannotFindModule)
    ∧ ((Reporter.mergeReports l₁).moduleNotExportAssignment).Perm
      ((Reporter.mergeReports l₂).moduleNotExportAssignment)
    ∧ ((Reporter.mergeReports l₁).importAfterSideEffects).Perm
      ((Reporter.mergeReports l₂).importAfterSideEffects)
    ∧ Reporter.destructedCount (Reporter.mergeReports l₁).requireWasDestructed k
      = Reporter.destructedCount (Reporter.mergeReports l₂).requireWasDestructed k
    ∧ (x ∈ (Reporter.mergeReports l₁).unableToLoadExternalModule
      ↔ x ∈ (Reporter.mergeReports l₂).unableToLoadExternalModule) := by
  refine ⟨perm_flatten (h.map _), perm_flatten (h.map _), perm_flatten (h.map _),
    perm_flatten (h.map _), perm_flatten (h.map _), perm_flatten (h.map _), ?_, ?_⟩
  · show Reporter.destructedCount (Reporter.mergeDestructedCounts l₁) k
      = Reporter.destructedCount (Reporter.mergeDestructedCounts l₂) k
    rw [mergeDestructedCounts_count, mergeDestructedCounts_count]
    exact (h.map _).sum_eq
  · show x ∈ Reporter.mergeUnableToLoad l₁ ↔ x ∈ Reporter.mergeUnableToLoad l₂
    rw [mem_mergeUnableToLoad, mem_mergeUnableToLoad]
    constructor
    · rintro ⟨r, hr, hx⟩; exact ⟨r, h.subset hr, hx⟩
    · rintro ⟨r, hr, hx⟩; exact ⟨r, h.symm.subset hr, hx⟩

/-- Witness for C6 at two concrete one-worker reports merged in both
orders. -/
theorem c6_witness :
    ([Reporter.MigrationReport.mk [("s1.js")] [] [] [] [] [(("m"), 2)] [("ext1")] [],
      Reporter.MigrationReport.mk [("s2.js")] [] [] [] [] [(("m"), 3)] [] []].Perm
     [Reporter.MigrationReport.mk [("s2.js")] [] [] [] [] [(("m"), 3)] [] [],
      Reporter.MigrationReport.mk [("s1.js")] [] [] [] [] [(("m"), 2)] [("ext1")] []]) ∧
    (((Reporter.mergeReports
        [Reporter.MigrationReport.mk [("s1.js")] [] [] [] [] [(("m"), 2)] [("ext1")] [],
         Reporter.MigrationReport.mk [("s2.js")] [] [] [] [] [(("m"), 3)] [] []]).skippedLargeFiles).Perm
      ((Reporter.mergeReports
        [Reporter.MigrationReport.mk [("s2.js")] [] [] [] [] [(("m"), 3)] [] [],
         Reporter.MigrationReport.mk [("s1.js")] [] [] [] [] [(("m"), 2)] [("ext1")] []]).skippedLargeFiles)
    ∧ ((Reporter.mergeReports
        [Reporter.MigrationReport.mk [("s1.js")] [] [] [] [] [(("m"), 2)] [("ext1")] [],
         Reporter.MigrationReport.mk [("s2.js")] [] [] [] [] [(("m"), 3)] [] []]).requireNotCalled).Perm
      ((Reporter.mergeReports
        [Reporter.MigrationReport.mk [("s2.js")] [] [] [] [] [(("m"), 3)] [] [],
         Reporter.MigrationReport.mk [("s1.js")] [] [] [] [] [(("m"), 2)] [("ext1")] []]).requireNotCalled)
    ∧ ((Reporter.mergeReports
        [Reporter.MigrationReport.mk [("s1.js")] [] [] [] [] [(("m"), 2)] [("ext1")] [],
         Reporter.MigrationReport.mk [("s2.js")] [] [] [] [] [(("m"), 3)] [] []]).requireOtherThanString).Perm
      ((Reporter.mergeReports
        [Reporter.MigrationReport.mk [("s2.js")] [] [] [] [] [(("m"), 3)] [] [],
         Reporter.MigrationReport.mk [("s1.js")] [] [] [] [] [(("m"), 2)] [("ext1")] []]).requireOtherThanString)
    ∧ ((Reporter.mergeReports
        [Reporter.MigrationReport.mk [("s1.js")] [] [] [] [] [(("m"), 2)] [("ext1")] [],
         Reporter.MigrationReport.mk [("s2.js")] [] [] [] [] [(("m"), 3)] [] []]).cannotFindModule).Perm
      ((Reporter.mergeReports
        [Reporter.MigrationReport.mk [("s2.js")] [] [] [] [] [(("m"), 3)] [] [],
         Reporter.MigrationReport.mk [("s1.js")] [] [] [] [] [(("m"), 2)] [("ext1")] []]).cannotFindModule)
    ∧ ((Reporter.mergeReports
        [Reporter.MigrationReport.mk [("s1.js")] [] [] [] [] [(("m"), 2)] [("ext1")] [],
         Reporter.MigrationReport.mk [("s2.js")] [] [] [] [] [(("m"), 3)] [] []]).moduleNotExportAssignment).Perm
      ((Reporter.mergeReports
        [Reporter.MigrationReport.mk [("s2.js")] [] [] [] [] [(("m"), 3)] [] [],
         Reporter.MigrationReport.mk [("s1.js")] [] [] [] [] [(("m"), 2)] [("ext1")] []]).moduleNotExportAssignment)
    ∧ ((Reporter.mergeReports
        [Reporter.MigrationReport.mk [("s1.js")] [] [] [] [] [(("m"), 2)] [("ext1")] [],
         Reporter.MigrationReport.mk [("s2.js")] [] [] [] [] [(("m"), 3)] [] []]).importAfterSideEffects).Perm
      ((Reporter.mergeReports
        [Reporter.MigrationReport.mk [("s2.js")] [] [] [] [] [(("m"), 3)] [] [],
         Reporter.MigrationReport.mk [("s1.js")] [] [] [] [] [(("m"), 2)] [("ext1")] []]).importAfterSideEffects)
    ∧ Reporter.destructedCount (Reporter.mergeReports
        [Reporter.MigrationReport.mk [("s1.js")] [] [] [] [] [(("m"), 2)] [("ext1")] [],
         Reporter.MigrationReport.mk [("s2.js")] [] [] [] [] [(("m"), 3)] [] []]).requireWasDestructed ("m")
      = Reporter.destructedCount (Reporter.mergeReports
        [Reporter.MigrationReport.mk [("s2.js")] [] [] [] [] [(("m"), 3)] [] [],
         Reporter.MigrationReport.mk [("s1.js")] [] [] [] [] [(("m"), 2)] [("ext1")] []]).requireWasDestructed ("m")
    ∧ (("ext1") ∈ (Reporter.mergeReports
        [Reporter.MigrationReport.mk [("s1.js")] [] [] [] [] [(("m"), 2)] [("ext1")] [],
         Reporter.MigrationReport.mk [("s2.js")] [] [] [] [] [(("m"), 3)] [] []]).unableToLoadExternalModule
      ↔ ("ext1") ∈ (Reporter.mergeReports
        [Reporter.MigrationReport.mk [("s2.js")] [] [] [] [] [(("m"), 3)] [] [],
         Reporter.MigrationReport.mk [("s1.js")] [] [] [] [] [(("m"), 2)] [("ext1")] []]).unableToLoadExternalModule)) :=
  ⟨by decide,
   c6_merge_order_independent
     [Reporter.MigrationReport.mk [("s1.js")] [] [] [] [] [(("m"), 2)] [("ext1")] [],
      Reporter.MigrationReport.mk [("s2.js")] [] [] [] [] [(("m"), 3)] [] []]
     [Reporter.MigrationReport.mk [("s2.js")] [] [] [] [] [(("m"), 3)] [] [],
      Reporter.MigrationReport.mk [("s1.js")] [] [] [] [] [(("m"), 2)] [("ext1")] []]
     ("m") ("ext1") (by decide)⟩

/-! ## C7: allowlist suppression in rendered output -/

/-- C7: every rendered Location-carrying category first converts each
Finding's Location with `displayLocation` (`relative/path:line:column`)
and then drops any string present in that category's allowlist: an
allowlisted string never appears in the category's rendered output, no
matter what else the report holds, while a non-allowlisted finding's
displayed location does appear. -/
theorem c7_allowlist_suppression
    (rel : String → String) (alM : Reporter.ModulesAllowlists)
    (alT : TsReporter.TsAllowlists)
    (rM : Reporter.MigrationReport) (rT : TsReporter.TsMigrationReport)
    (s : String) (mid : String) (loc : Reporter.Location)
    (h1 : alM.requireNotCalled.contains s = true)
    (h2 : alM.requireOtherThanString.contains s = true)
    (h3 : alM.cannotFindModule.contains s = true)
    (h4 : alM.moduleNotExportAssignment.contains s = true)
    (h5 : alT.typeParameterWithVariance.contains s = true)
    (h6 : loc ∈ rM.requireNotCalled)
    (h7 : alM.requireNotCalled.contains (Reporter.displayLocation rel loc) = false) :
    s ∉ Reporter.renderedRequireNotCalled rel alM rM
    ∧ s ∉ Reporter.renderedRequireOtherThanString rel alM rM
    ∧ (mid, s) ∉ Reporter.renderedCannotFindModule rel alM rM
    ∧ s ∉ Reporter.renderedModuleNotExportAssignment rel alM rM
    ∧ s ∉ TsReporter.renderedTypeParameterWithVariance rel alT rT
    ∧ Reporter.displayLocation rel loc ∈ Reporter.renderedRequireNotCalled rel alM rM := by
  refine ⟨?_, ?_, ?_, ?_, ?_, ?_⟩
  · intro hmem
    have hmm := (List.mem_filter.mp hmem).2
    simp at hmm
    exact hmm (by simpa using h1)
  · intro hmem
    have hmm := (List.mem_filter.mp hmem).2
    simp at hmm
    exact hmm (by simpa using h2)
  · intro hmem
    have hmm := (List.mem_filter.mp hmem).2
    simp at hmm
    exact hmm (by simpa using h3)
  · intro hmem
    have hmm := (List.mem_filter.mp hmem).2
    simp at hmm
    exact hmm (by simpa using h4)
  · intro hmem
    have hmm := (List.mem_filter.mp hmem).2
    simp at hmm
    exact hmm (by simpa using h5)
  · apply List.mem_filter.mpr
    refine ⟨List.mem_map.mpr ⟨loc, h6, rfl⟩, ?_⟩
    simp
    simpa using h7

/-- Witness for C7 at a one-finding report whose location renders to
`src/a.js:3:7`, with `allow.js:1:0` allowlisted in every category. -/
theorem c7_witness :
    ((Reporter.ModulesAllowlists.mk [("allow.js:1:0")] [("allow.js:1:0")]
        [("allow.js:1:0")] [("allow.js:1:0")]).requireNotCalled.contains
      ("allow.js:1:0") = true) ∧
    ((Reporter.ModulesAllowlists.mk [("allow.js:1:0")] [("allow.js:1:0")]
        [("allow.js:1:0")] [("allow.js:1:0")]).requireOtherThanString.contains
      ("allow.js:1:0") = true) ∧
    ((Reporter.ModulesAllowlists.mk [("allow.js:1:0")] [("allow.js:1:0")]
        [("allow.js:1:0")] [("allow.js:1:0")]).cannotFindModule.contains
      ("allow.js:1:0") = true) ∧
    ((Reporter.ModulesAllowlists.mk [("allow.js:1:0")] [("allow.js:1:0")]
        [("allow.js:1:0")] [("allow.js:1:0")]).moduleNotExportAssignment.contains
      ("allow.js:1:0") = true) ∧
    ((TsReporter.TsAllowlists.mk [("allow.js:1:0")]).typeParameterWithVariance.contains
      ("allow.js:1:0") = true) ∧
    (Reporter.Location.mk ("src/a.js") 3 7 3 9
      ∈ (Reporter.MigrationReport.mk [] [Reporter.Location.mk ("src/a.js") 3 7 3 9]
          [] [] [] [] [] []).requireNotCalled) ∧
    ((Reporter.ModulesAllowlists.mk [("allow.js:1:0")] [("allow.js:1:0")]
        [("allow.js:1:0")] [("allow.js:1:0")]).requireNotCalled.contains
      (Reporter.displayLocation id (Reporter.Location.mk ("src/a.js") 3 7 3 9)) = false) ∧
    (("allow.js:1:0") ∉ Reporter.renderedRequireNotCalled id
        (Reporter.ModulesAllowlists.mk [("allow.js:1:0")] [("allow.js:1:0")]
          [("allow.js:1:0")] [("allow.js:1:0")])
        (Reporter.MigrationReport.mk [] [Reporter.Location.mk ("src/a.js") 3 7 3 9]
          [] [] [] [] [] [])
    ∧ ("allow.js:1:0") ∉ Reporter.renderedRequireOtherThanString id
        (Reporter.ModulesAllowlists.mk [("allow.js:1:0")] [("allow.js:1:0")]
          [("allow.js:1:0")] [("allow.js:1:0")])
        (Reporter.MigrationReport.mk [] [Reporter.Location.mk ("src/a.js") 3 7 3 9]
          [] [] [] [] [] [])
    ∧ (("modX"), ("allow.js:1:0")) ∉ Reporter.renderedCannotFindModule id
        (Reporter.ModulesAllowlists.mk [("allow.js:1:0")] [("allow.js:1:0")]
          [("allow.js:1:0")] [("allow.js:1:0")])
        (Reporter.MigrationReport.mk [] [Reporter.Location.mk ("src/a.js") 3 7 3 9]
          [] [] [] [] [] [])
    ∧ ("allow.js:1:0") ∉ Reporter.renderedModuleNotExportAssignment id
        (Reporter.ModulesAllowlists.mk [("allow.js:1:0")] [("allow.js:1:0")]
          [("allow.js:1:0")] [("allow.js:1:0")])
        (Reporter.MigrationReport.mk [] [Reporter.Location.mk ("src/a.js") 3 7 3 9]
          [] [] [] [] [] [])
    ∧ ("allow.js:1:0") ∉ TsReporter.renderedTypeParameterWithVariance id
        (TsReporter.TsAllowlists.mk [("allow.js:1:0")])
        (TsReporter.TsMigrationReport.mk [] [] [] [])
    ∧ Reporter.displayLocation id (Reporter.Location.mk ("src/a.js") 3 7 3 9)
        ∈ Reporter.renderedRequireNotCalled id
          (Reporter.ModulesAllowlists.mk [("allow.js:1:0")] [("allow.js:1:0")]
            [("allow.js:1:0")] [("allow.js:1:0")])
          (Reporter.MigrationReport.mk [] [Reporter.Location.mk ("src/a.js") 3 7 3 9]
            [] [] [] [] [] [])) :=
  ⟨by decide, by decide, by decide, by decide, by decide, by simp, by decide,
   c7_allowlist_suppression id
     (Reporter.ModulesAllowlists.mk [("allow.js:1:0")] [("allow.js:1:0")]
       [("allow.js:1:0")] [("allow.js:1:0")])
     (TsReporter.TsAllowlists.mk [("allow.js:1:0")])
     (Reporter.MigrationReport.mk [] [Reporter.Location.mk ("src/a.js") 3 7 3 9]
       [] [] [] [] [] [])
     (TsReporter.TsMigrationReport.mk [] [] [] [])
     ("allow.js:1:0") ("modX") (Reporter.Location.mk ("src/a.js") 3 7 3 9)
     (by decide) (by decide) (by decide) (by decide) (by decide) (by simp) (by decide)⟩

/-! ## C9: totality of the type-migration function -/

theorem doc_of_bind {α β : Type} {x : Except String α} {f : α → Except String β}
    (hx : ∀ msg, x = Except.error msg → Migrate.isDocumentedError msg = true)
    (hf : ∀ a, ∀ msg, f a = Except.error msg → Migrate.isDocumentedError msg = true) :
    ∀ msg, (x >>= f) = Except.error msg → Migrate.isDocumentedError msg = true := by
  intro msg h
  cases hx' : x with
  | error e =>
    rw [hx', except_bind_error] at h
    injection h with h2
    exact h2 ▸ hx e hx'
  | ok a =>
    rw [hx', except_bind_ok] at h
    exact hf a msg h

theorem doc_of_pure {β : Type} (a : β) :
    ∀ msg, (pure a : Except String β) = Except.error msg →
      Migrate.isDocumentedError msg = true := by
  intro msg h
  exact absurd h (by simp [except_pure_eq_ok])

theorem doc_of_error {α : Type} (e : String)
    (he : Migrate.isDocumentedError e = true) :
    ∀ msg, (Except.error e : Except String α) = Except.error msg →
      Migrate.isDocumentedError msg = true := by
  intro msg h
  injection h with h2
  rwa [← h2]

theorem doc_unexpected_node (s : String) :
    Migrate.isDocumentedError ("Unexpected AST node: " ++ s) = true := by
  have hpre : ("Unexpected AST node:").data <+: ("Unexpected AST node: " ++ s).data := by
    rw [String.data_append]
    exact (List.isPrefixOf_iff_prefix.mp (by decide)).trans
      (List.prefix_append ("Unexpected AST node: ").data s.data)
  simp [Migrate.isDocumentedError, Migrate.strStarts, List.isPrefixOf_iff_prefix, hpre]

/-- Every error the migration engine can produce renders one of the
documented unsupported-construct messages, proved by the mutual
functional induction of the engine. -/
theorem migrate_type_errors_documented :
    ∀ ft, ∀ msg, Migrate.migrateType ft = Except.error msg →
      Migrate.isDocumentedError msg = true := by
  apply Migrate.migrateType.induct
    (fun ft => ∀ msg, Migrate.migrateType ft = Except.error msg →
      Migrate.isDocumentedError msg = true)
    (fun ts i idx => ∀ msg, Migrate.migrateUnionMembers ts i idx = Except.error msg →
      Migrate.isDocumentedError msg = true)
    (fun ms acc => ∀ msg, Migrate.migrateObjectGroups ms acc = Except.error msg →
      Migrate.isDocumentedError msg = true)
    (fun m => ∀ msg, Migrate.migrateObjectMember m = Except.error msg →
      Migrate.isDocumentedError msg = true)
    (fun ts => ∀ msg, Migrate.migrateWrapMembers ts = Except.error msg →
      Migrate.isDocumentedError msg = true)
    (fun ts => ∀ msg, Migrate.migrateTypes ts = Except.error msg →
      Migrate.isDocumentedError msg = true)
    (fun ps => ∀ msg, Migrate.migrateTypeParams ps = Except.error msg →
      Migrate.isDocumentedError msg = true)
    (fun i ps => ∀ msg, Migrate.migrateFunctionParams i ps = Except.error msg →
      Migrate.isDocumentedError msg = true)
  -- `FlowType.any`
  · simp only [Migrate.migrateType]
    exact doc_of_pure _
  -- `array`
  · intro elementType ih
    simp only [Migrate.migrateType]
    exact doc_of_bind ih (fun a => doc_of_pure _)
  -- `boolean`
  · simp only [Migrate.migrateType]
    exact doc_of_pure _
  -- `booleanLiteral`
  · intro value
    simp only [Migrate.migrateType]
    exact doc_of_pure _
  -- `nullLiteral`
  · simp only [Migrate.migrateType]
    exact doc_of_pure _
  -- `existsTy`
  · simp only [Migrate.migrateType]
    exact doc_of_pure _
  -- `functionTy` with type parameters
  · intro params rest returnType ps ih8 ihret ihrest ih7
    simp only [Migrate.migrateType]
    refine doc_of_bind ih7 (fun a => ?_)
    refine doc_of_bind (doc_of_pure _) (fun tsTypeParams => ?_)
    refine doc_of_bind ih8 (fun tsParams => ?_)
    cases rest with
    | none =>
      exact doc_of_bind (doc_of_pure _) (fun allParams =>
        doc_of_bind ihret (fun r => doc_of_pure _))
    | some r =>
      cases r with
      | mk restName restTy =>
        exact doc_of_bind ihrest (fun tsRestTy =>
          doc_of_bind (doc_of_pure _) (fun allParams =>
            doc_of_bind ihret (fun r => doc_of_pure _)))
  -- `functionTy` without type parameters
  · intro params rest returnType ih8 ihret ihrest
    simp only [Migrate.migrateType]
    refine doc_of_bind (doc_of_pure _) (fun tsTypeParams => ?_)
    refine doc_of_bind ih8 (fun tsParams => ?_)
    cases rest with
    | none =>
      exact doc_of_bind (doc_of_pure _) (fun allParams =>
        doc_of_bind ihret (fun r => doc_of_pure _))
    | some r =>
      cases r with
      | mk restName restTy =>
        exact doc_of_bind ihrest (fun tsRestTy =>
          doc_of_bind (doc_of_pure _) (fun allParams =>
            doc_of_bind ihret (fun r => doc_of_pure _)))
  -- `generic` with nonempty type arguments
  · intro gid ps hlen ih6
    simp only [Migrate.migrateType, if_pos hlen]
    exact doc_of_bind ih6 (fun a =>
      doc_of_bind (doc_of_pure _) (fun p => doc_of_pure _))
  -- `generic` with an empty argument list
  · intro gid ps hlen
    simp only [Migrate.migrateType, if_neg hlen]
    exact doc_of_bind (doc_of_pure _) (fun p => doc_of_pure _)
  -- `generic` without type arguments
  · intro gid
    simp only [Migrate.migrateType]
    exact doc_of_bind (doc_of_pure _) (fun p => doc_of_pure _)
  -- `interfaceTy`
  · simp only [Migrate.migrateType]
    exact doc_of_error _ (by decide)
  -- `intersection`
  · intro types ih5
    simp only [Migrate.migrateType]
    exact doc_of_bind ih5 (fun a => doc_of_pure _)
  -- `mixed`
  · simp only [Migrate.migrateType]
    exact doc_of_pure _
  -- `empty`
  · simp only [Migrate.migrateType]
    exact doc_of_pure _
  -- `nullable`
  · intro ty ih
    simp only [Migrate.migrateType]
    exact doc_of_bind ih (fun a => doc_of_pure _)
  -- `numberLiteral`
  · intro value
    simp only [Migrate.migrateType]
    exact doc_of_pure _
  -- `number`
  · simp only [Migrate.migrateType]
    exact doc_of_pure _
  -- `object`
  · intro properties indexers callProperties internalSlots flowMembers ih3
    simp only [Migrate.migrateType]
    apply doc_of_bind ih3
    intro its msg h
    split at h
    · exact absurd h (by simp [except_pure_eq_ok])
    · split at h <;> exact absurd h (by simp [except_pure_eq_ok])
  -- `stringLiteral`
  · intro value
    simp only [Migrate.migrateType]
    exact doc_of_pure _
  -- `string`
  · simp only [Migrate.migrateType]
    exact doc_of_pure _
  -- `thisTy`
  · simp only [Migrate.migrateType]
    exact doc_of_pure _
  -- `tuple`
  · intro types ih6
    simp only [Migrate.migrateType]
    exact doc_of_bind ih6 (fun a => doc_of_pure _)
  -- `typeofTy`
  · intro argument ih
    simp only [Migrate.migrateType]
    apply doc_of_bind ih
    intro a msg h
    split at h
    · split at h
      · injection h with h2
        rw [← h2]
        decide
      · exact absurd h (by simp [except_pure_eq_ok])
    · injection h with h2
      rw [← h2]
      exact doc_unexpected_node _
  -- `union`
  · intro types ih2
    simp only [Migrate.migrateType]
    apply doc_of_bind ih2
    intro a msg h
    rcases a with ⟨members, idx⟩
    rw [except_pure_eq_ok] at h
    exact Except.noConfusion h
  -- `voidTy`
  · simp only [Migrate.migrateType]
    exact doc_of_pure _
  -- `migrateUnionMembers []`
  · intro x idx
    simp only [Migrate.migrateUnionMembers]
    exact doc_of_pure _
  -- `migrateUnionMembers` cons
  · intro t ts i idx ih1 ih2
    simp only [Migrate.migrateUnionMembers]
    exact doc_of_bind ih1 (fun a =>
      doc_of_bind (ih2 a) (fun b => by
        rcases b with ⟨r, f⟩
        exact doc_of_pure _))
  -- `migrateObjectGroups []`
  · intro acc
    simp only [Migrate.migrateObjectGroups]
    exact doc_of_pure _
  -- `migrateObjectGroups` spread cons
  · intro argument _line restMembers acc ih1 ih3
    simp only [Migrate.migrateObjectGroups]
    exact doc_of_bind ih1 (fun a => ih3 a)
  -- `migrateObjectGroups` other cons
  · intro m restMembers acc hnot ih4 ih3
    cases m with
    | spreadProp a l => exact absurd rfl (hnot a l)
    | property k v o var kind proto static method line =>
      simp only [Migrate.migrateObjectGroups]
      exact doc_of_bind ih4 (fun a => ih3 a)
    | indexer i k v var s l =>
      simp only [Migrate.migrateObjectGroups]
      exact doc_of_bind ih4 (fun a => ih3 a)
    | callProp l =>
      simp only [Migrate.migrateObjectGroups]
      exact doc_of_bind ih4 (fun a => ih3 a)
    | internalSlot l =>
      simp only [Migrate.migrateObjectGroups]
      exact doc_of_bind ih4 (fun a => ih3 a)
  -- property with a falsy `kind`
  · intro key value optional variance kind proto static method _line hkind
    intro msg h
    simp only [Migrate.migrateObjectMember] at h
    rw [if_pos hkind] at h
    injection h with h2
    rw [← h2]
    decide
  -- property with `proto`
  · intro key value optional variance kind static method _line hkind
    intro msg h
    simp only [Migrate.migrateObjectMember] at h
    rw [if_neg hkind, if_pos trivial] at h
    injection h with h2
    rw [← h2]
    decide
  -- property with `static`
  · intro key value optional variance kind proto method _line hkind hproto
    intro msg h
    simp only [Migrate.migrateObjectMember] at h
    rw [if_neg hkind, if_neg hproto, if_pos trivial] at h
    injection h with h2
    rw [← h2]
    decide
  -- ordinary property
  · intro key value optional variance kind proto static method _line hkind hproto hstatic ihv
    simp only [Migrate.migrateObjectMember, if_neg hkind, if_neg hproto, if_neg hstatic]
    exact doc_of_bind ihv (fun a => by
      intro msg h
      split at h
      · exact absurd h (by simp [except_pure_eq_ok])
      · split at h
        · exact absurd h (by simp [except_pure_eq_ok])
        · injection h with h2
          rw [← h2]
          exact doc_unexpected_node _)
  -- indexer with `static`
  · intro id key value variance _line
    intro msg h
    simp only [Migrate.migrateObjectMember] at h
    rw [if_pos trivial] at h
    injection h with h2
    rw [← h2]
    decide
  -- ordinary indexer
  · intro id key value variance static _line hstatic ihk ihv
    simp only [Migrate.migrateObjectMember, if_neg hstatic]
    exact doc_of_bind ihk (fun a => doc_of_bind ihv (fun b => doc_of_pure _))
  -- call property
  · intro _line
    simp only [Migrate.migrateObjectMember]
    exact doc_of_error _ (by decide)
  -- internal slot
  · intro _line
    simp only [Migrate.migrateObjectMember]
    exact doc_of_error _ (by decide)
  -- spread property (unreachable default arm)
  · intro _argument _line
    simp only [Migrate.migrateObjectMember]
    exact doc_of_error _ (by decide)
  -- `migrateWrapMembers []`
  · simp only [Migrate.migrateWrapMembers]
    exact doc_of_pure _
  -- `migrateWrapMembers` cons
  · intro t ts ih1 ih5
    simp only [Migrate.migrateWrapMembers]
    exact doc_of_bind ih1 (fun a => doc_of_bind ih5 (fun b => doc_of_pure _))
  -- `migrateTypes []`
  · simp only [Migrate.migrateTypes]
    exact doc_of_pure _
  -- `migrateTypes` cons
  · intro t ts ih1 ih6
    simp only [Migrate.migrateTypes]
    exact doc_of_bind ih1 (fun a => doc_of_bind ih6 (fun b => doc_of_pure _))
  -- `migrateTypeParams []`
  · simp only [Migrate.migrateTypeParams]
    exact doc_of_pure _
  -- `migrateTypeParams` cons with a bound
  · intro name _variance dflt ps b ih7 ihdflt ihb
    simp only [Migrate.migrateTypeParams]
    refine doc_of_bind ihb (fun x => ?_)
    refine doc_of_bind (doc_of_pure _) (fun c => ?_)
    cases dflt with
    | none =>
      exact doc_of_bind (doc_of_pure _) (fun d =>
        doc_of_bind ih7 (fun rest => doc_of_pure _))
    | some db =>
      exact doc_of_bind ihdflt (fun y =>
        doc_of_bind (doc_of_pure _) (fun d =>
          doc_of_bind ih7 (fun rest => doc_of_pure _)))
  -- `migrateTypeParams` cons without a bound
  · intro name _variance dflt ps ih7 ihdflt
    simp only [Migrate.migrateTypeParams]
    refine doc_of_bind (doc_of_pure _) (fun c => ?_)
    cases dflt with
    | none =>
      exact doc_of_bind (doc_of_pure _) (fun d =>
        doc_of_bind ih7 (fun rest => doc_of_pure _))
    | some db =>
      exact doc_of_bind ihdflt (fun y =>
        doc_of_bind (doc_of_pure _) (fun d =>
          doc_of_bind ih7 (fun rest => doc_of_pure _)))
  -- `migrateFunctionParams` nil
  · intro x
    simp only [Migrate.migrateFunctionParams]
    exact doc_of_pure _
  -- `migrateFunctionParams` cons
  · intro i name optional tyAnn ps ih1 ih8
    simp only [Migrate.migrateFunctionParams]
    exact doc_of_bind ih1 (fun a => doc_of_bind ih8 (fun b => doc_of_pure _))

/-- C9: the migration is total over the closed Flow type grammar — every
Flow type node either migrates to a TypeScript node or fails with one of
the documented unsupported-construct error messages; no node kind is
silently dropped. -/
theorem c9_migrate_type_total (ft : Migrate.FlowType) :
    (∃ tsType, Migrate.migrateType ft = Except.ok tsType) ∨
    (∃ msg, Migrate.migrateType ft = Except.error msg ∧
      Migrate.isDocumentedError msg = true) := by
  cases h : Migrate.migrateType ft with
  | ok t => exact Or.inl ⟨t, rfl⟩
  | error e => exact Or.inr ⟨e, rfl, migrate_type_errors_documented ft e h⟩


